import Mathlib

/-!
Parallel installation service (provisioner).

A shallow embedding of
`components/provisioner/internal/parallel-installation/parallel_installation.go`.

The Go service keeps a map `runtimeID -> *ComponentsStatus` behind one mutex, writes to a
logger, creates deployers and starts goroutines.  Here the service is a record that is threaded
through every operation; everything the Go code does to the outside world (log lines, mutex
operations, map accesses, calls of `ConsumeEvent`, deployer creation, goroutine starts) is
appended to the `trace` field in program order.

`ComponentsStatus`, `NewComponentsStatus` and `SetOverrides` are defined in sibling files of the
package; the operations of this file take them as parameters (`AggregatorOps`, `SetOverrides`).
-/

namespace ParallelInstallation

/-! ## Values of the surrounding packages -/

/-- Go `error` values that are not nil: a plain error, or the result of `errors.Wrap`. -/
inductive GoError where
  | new (msg : String)
  | wrapped (cause : GoError) (message : String)
  deriving DecidableEq, Repr

/-- The text of `err.Error()`; a wrapped error prints as `message: cause`. -/
def GoError.Error : GoError → String
  | .new msg => msg
  | .wrapped cause message => message ++ ": " ++ cause.Error

/-- The error directly below a wrapper, `none` for an error that wraps nothing. -/
def GoError.Unwrap : GoError → Option GoError
  | .new _ => none
  | .wrapped cause _ => some cause

/-- The function `errors.Wrap(err, message)` of `github.com/pkg/errors`: nil stays nil. -/
def Wrap (err : Option GoError) (message : String) : Option GoError :=
  match err with
  | none => none
  | some e => some (.wrapped e message)

/-- The type `deployment.ProcessEvent`: the six kinds this file names, or any other value. -/
inductive ProcessEvent where
  | ProcessStart
  | ProcessRunning
  | ProcessFinished
  | ProcessExecutionFailure
  | ProcessForceQuitFailure
  | ProcessTimeoutFailure
  | other (name : String)
  deriving DecidableEq, Repr

/-- How a `ProcessEvent` prints under `%s`. -/
def ProcessEvent.text : ProcessEvent → String
  | .ProcessStart => "ProcessStart"
  | .ProcessRunning => "ProcessRunning"
  | .ProcessFinished => "ProcessFinished"
  | .ProcessExecutionFailure => "ProcessExecutionFailure"
  | .ProcessForceQuitFailure => "ProcessForceQuitFailure"
  | .ProcessTimeoutFailure => "ProcessTimeoutFailure"
  | .other name => name

/-- The fields of `components.KymaComponent` that this file reads. -/
structure KymaComponent where
  Name : String
  Status : String
  deriving DecidableEq, Repr

/-- The struct `deployment.ProcessUpdate`, the progress event reported by the engine. -/
structure ProcessUpdate where
  Event : ProcessEvent
  Phase : String
  Component : KymaComponent
  Error : Option GoError
  deriving DecidableEq, Repr

/-- One `model.ConfigEntry`. -/
structure ConfigEntry where
  Key : String
  Value : String
  Secret : Bool
  deriving DecidableEq, Repr

/-- The struct `model.Configuration`. -/
structure Configuration where
  ConfigEntries : List ConfigEntry
  deriving DecidableEq, Repr

/-- The fields of `model.KymaComponentConfig` that the package reads. -/
structure KymaComponentConfig where
  Component : String
  Namespace : String
  Configuration : Configuration
  Prerequisite : Bool
  deriving DecidableEq, Repr

/-- The field of `model.Release` that this file reads. -/
structure Release where
  Version : String
  deriving DecidableEq, Repr

/-- The struct `config.ComponentDefinition`. -/
structure ComponentDefinition where
  Name : String
  Namespace : String
  deriving DecidableEq, Repr

/-- The struct `config.ComponentList`; its zero value has two nil slices. -/
structure ComponentList where
  Prerequisites : List ComponentDefinition
  Components : List ComponentDefinition
  deriving DecidableEq, Repr

/-- The struct `config.KubeconfigSource`. -/
structure KubeconfigSource where
  Content : String
  deriving DecidableEq, Repr

/-- The fields of `config.Config` set by `TriggerInstallation`.  Durations are nanoseconds.
The `Log` field (the service logger with the field `runtimeID`) is kept as that runtime ID. -/
structure Config where
  WorkersCount : Int
  CancelTimeout : Int
  QuitTimeout : Int
  HelmTimeoutSeconds : Int
  BackoffInitialIntervalSeconds : Int
  BackoffMaxElapsedTimeSeconds : Int
  Log : String
  HelmMaxRevisionHistory : Int
  Profile : String
  ComponentList : ComponentList
  ResourcePath : String
  InstallationResourcePath : String
  KubeconfigSource : KubeconfigSource
  Version : String
  deriving DecidableEq, Repr

/-- The external `overrides.Builder`, seen as the overrides that were added to it. -/
structure Builder where
  overrides : List (String × String)
  deriving DecidableEq, Repr

/-- The struct `installation.InstallationState`. -/
structure InstallationState where
  State : String
  Description : String
  deriving DecidableEq, Repr

/-- The fields of `installation.InstallationError` set by this file; the zero value of
`Recoverable` is `false`. -/
structure InstallationError where
  ShortMessage : String
  Recoverable : Bool
  deriving DecidableEq, Repr

/-- The constant `v1alpha1.StateInstalled`. -/
def StateInstalled : String := "Installed"

/-- The constant `v1alpha1.StateInProgress`. -/
def StateInProgress : String := "InProgress"

/-- The constant `v1alpha1.StateError`. -/
def StateError : String := "Error"

/-- The constant `installation.NoInstallationState`. -/
def NoInstallationState : String := "NoInstallation"

/-- Two's complement wrap-around of a 64-bit signed integer (`time.Duration` is an `int64`). -/
def wrapInt64 (x : Int) : Int :=
  (x + 2 ^ 63) % 2 ^ 64 - 2 ^ 63

/-- The constant `time.Minute`, in nanoseconds. -/
def Minute : Int := 60 * 1000000000

/-! ## The engine and what the service does to the outside world -/

/-- A `KymaDeployer` as the service sees it: running it reports `updates`, in this order, to
the callback obtained for `runtimeID`, and then `StartKymaDeployment` returns `result`. -/
structure KymaDeployer where
  runtimeID : String
  updates : List ProcessUpdate
  result : Option GoError
  deriving DecidableEq, Repr

/-- The struct `AsyncDeployment`. -/
structure AsyncDeployment where
  deployer : KymaDeployer
  deriving DecidableEq, Repr

/-- Severity of a log line. -/
inductive LogLevel where
  | info
  | warn
  | error
  deriving DecidableEq, Repr

/-- One observable step of the service.  Map accesses carry whether the mutex was held when
they were made. -/
inductive Effect where
  | log (level : LogLevel) (msg : String)
  | stdlog (level : LogLevel) (msg : String)
  | lock
  | unlock
  | mapLookup (runtimeID : String) (held : Bool)
  | mapWrite (runtimeID : String) (held : Bool)
  | mapDelete (runtimeID : String) (held : Bool)
  | consumeEvent (runtimeID : String) (event : ProcessUpdate)
  | getResourcePaths (version : String)
  | setOverrides
  | createDeployer (runtimeID : String) (cfg : Config)
  | go (task : AsyncDeployment)
  deriving DecidableEq, Repr

/-- The methods of `*ComponentsStatus` and its constructor, which live in a sibling file of the
package.  `ConsumeEvent` changes the aggregator in place, so it returns the new aggregator;
the constructor returns `none` when it does not return normally. -/
structure AggregatorOps (A : Type) where
  NewComponentsStatus : List KymaComponentConfig → Option A
  ConsumeEvent : A → ProcessUpdate → A
  IsFinished : A → Bool
  InstallationError : A → Option GoError
  ComponentError : A → Option GoError
  StatusDescription : A → String

/-- The struct `parallelInstallationService`.  `installationStatus` is the Go map (a missing key
is `none`), `mux` tells whether the mutex is held, `trace` lists what has been done so far and
`goroutines` the background tasks started so far. -/
structure parallelInstallationService (A : Type) where
  createDeployer : String → Config → Builder → KymaDeployer
  pathFetcher : String → List KymaComponentConfig → String × String × Option GoError
  installationStatus : String → Option A
  mux : Bool
  cancelTimeout : Int
  trace : List Effect
  goroutines : List AsyncDeployment

/-- How a call ends: it returns a value or it panics. -/
inductive Outcome (α : Type) where
  | returned (value : α)
  | panicked (msg : String)
  deriving DecidableEq, Repr

/-! ## The operations of `parallel_installation.go` -/

section Operations

variable {A : Type}

/-- Appends one step to the trace. -/
def parallelInstallationService.emit (p : parallelInstallationService A) (e : Effect) :
    parallelInstallationService A :=
  { p with trace := p.trace ++ [e] }

/-- The call `p.mux.Lock()`. -/
def parallelInstallationService.Lock (p : parallelInstallationService A) :
    parallelInstallationService A :=
  { p.emit .lock with mux := true }

/-- The call `p.mux.Unlock()`. -/
def parallelInstallationService.Unlock (p : parallelInstallationService A) :
    parallelInstallationService A :=
  { p.emit .unlock with mux := false }

/-- The calls `p.log.Info` and `p.log.Infof`. -/
def parallelInstallationService.Infof (p : parallelInstallationService A) (msg : String) :
    parallelInstallationService A :=
  p.emit (.log .info msg)

/-- The call `p.log.Warnf`. -/
def parallelInstallationService.Warnf (p : parallelInstallationService A) (msg : String) :
    parallelInstallationService A :=
  p.emit (.log .warn msg)

/-- The call `p.log.Errorf`. -/
def parallelInstallationService.Errorf (p : parallelInstallationService A) (msg : String) :
    parallelInstallationService A :=
  p.emit (.log .error msg)

/-- The read `p.installationStatus[runtimeID]`. -/
def parallelInstallationService.lookup (p : parallelInstallationService A) (runtimeID : String) :
    Option A × parallelInstallationService A :=
  (p.installationStatus runtimeID, p.emit (.mapLookup runtimeID p.mux))

/-- The assignment `p.installationStatus[runtimeID] = v`. -/
def parallelInstallationService.store (p : parallelInstallationService A) (runtimeID : String)
    (v : A) : parallelInstallationService A :=
  { p.emit (.mapWrite runtimeID p.mux) with
    installationStatus := Function.update p.installationStatus runtimeID (some v) }

/-- The statement `delete(p.installationStatus, runtimeID)`. -/
def parallelInstallationService.delete (p : parallelInstallationService A) (runtimeID : String) :
    parallelInstallationService A :=
  { p.emit (.mapDelete runtimeID p.mux) with
    installationStatus := Function.update p.installationStatus runtimeID none }

/-- The call `.ConsumeEvent(event)` on the aggregator `v` that the map holds for `runtimeID`:
the map keeps the same pointer, the aggregator behind it changes. -/
def parallelInstallationService.consume (ops : AggregatorOps A)
    (p : parallelInstallationService A) (runtimeID : String) (v : A) (event : ProcessUpdate) :
    parallelInstallationService A :=
  { p.emit (.consumeEvent runtimeID event) with
    installationStatus :=
      Function.update p.installationStatus runtimeID (some (ops.ConsumeEvent v event)) }

/-- The function `callbackErrors`, which writes to the package-level logger. -/
def callbackErrors (err : GoError) (p : parallelInstallationService A) :
    parallelInstallationService A :=
  p.emit (.stdlog .error ("Installation failed: " ++ err.Error))

/-- The function `callbackSuccess`, which writes to the package-level logger. -/
def callbackSuccess (p : parallelInstallationService A) : parallelInstallationService A :=
  p.emit (.stdlog .info "Installation completed successfully")

/-- The function `NewParallelInstallationService`: a fresh mutex and an empty map. -/
def NewParallelInstallationService
    (pathFetcher : String → List KymaComponentConfig → String × String × Option GoError)
    (creator : String → Config → Builder → KymaDeployer) (timeout : Int) :
    parallelInstallationService A :=
  { createDeployer := creator
    pathFetcher := pathFetcher
    installationStatus := fun _ => none
    mux := false
    cancelTimeout := timeout
    trace := []
    goroutines := [] }

/-- The closure `showCompStatus` of `getCallbackUpdate`. -/
def showCompStatus (p : parallelInstallationService A) (comp : KymaComponent) :
    parallelInstallationService A :=
  if comp.Name ≠ "" then
    p.Infof ("Status of component '" ++ comp.Name ++ "': " ++ comp.Status)
  else p

/-- The closure `consumeEvent` of `getCallbackUpdate`. -/
def consumeEvent (ops : AggregatorOps A) (runtimeID : String)
    (p : parallelInstallationService A) (event : ProcessUpdate) :
    parallelInstallationService A :=
  let p := p.Lock
  let (found, p) := p.lookup runtimeID
  let p :=
    match found with
    | some _ =>
      match p.lookup runtimeID with
      | (some v, p) => p.consume ops runtimeID v event
      | (none, p) => p
    | none => p.Warnf ("status checker for runtime: " ++ runtimeID ++ " not exist anymore")
  p.Unlock

/-- The method `getCallbackUpdate`: the callback for `runtimeID`, applied to the service as it
is when the update arrives. -/
def getCallbackUpdate (ops : AggregatorOps A) (runtimeID : String)
    (p : parallelInstallationService A) (update : ProcessUpdate) :
    parallelInstallationService A :=
  match update.Event with
  | .ProcessStart =>
    let p := p.Infof ("Starting installation phase '" ++ update.Phase ++ "'")
    showCompStatus p update.Component
  | .ProcessRunning =>
    let p := showCompStatus p update.Component
    consumeEvent ops runtimeID p update
  | .ProcessFinished =>
    p.Infof ("Finished installation phase '" ++ update.Phase ++ "' successfully")
  | .ProcessExecutionFailure | .ProcessForceQuitFailure | .ProcessTimeoutFailure =>
    let p := p.Errorf ("Installation failed on component " ++ update.Component.Name ++
      ", status: " ++ update.Event.text ++ ", error: " ++
      (match update.Error with
       | some e => e.Error
       | none => "<nil>"))
    consumeEvent ops runtimeID p update
  | .other _ =>
    let p := p.Infof ("Unknown event: " ++ update.Event.text ++
      ". The installation will continue")
    showCompStatus p update.Component

/-- The method `CheckInstallationState`; the `*rest.Config` argument is ignored by the code. -/
def CheckInstallationState (ops : AggregatorOps A) (p : parallelInstallationService A)
    (runtimeID : String) :
    (InstallationState × Option InstallationError) × parallelInstallationService A :=
  let p := p.Lock
  match p.lookup runtimeID with
  | (some v, p) =>
    if ops.IsFinished v then
      let p := p.delete runtimeID
      let p := p.Infof ("installation for runtime " ++ runtimeID ++ " successfully completed")
      ((⟨StateInstalled, ops.StatusDescription v⟩, none), p.Unlock)
    else
      match ops.InstallationError v with
      | some err =>
        let p := p.delete runtimeID
        let p := p.Infof ("installation for runtime " ++ runtimeID ++ " failed: " ++ err.Error)
        ((⟨StateError, ""⟩, some ⟨"Installation failed", false⟩), p.Unlock)
      | none =>
        match ops.ComponentError v with
        | some err =>
          let p :=
            p.Errorf ("installation for runtime " ++ runtimeID ++ " failed: " ++ err.Error)
          ((⟨StateError, ""⟩, some ⟨"Component installation failed", true⟩), p.Unlock)
        | none =>
          ((⟨StateInProgress, ops.StatusDescription v⟩, none), p.Unlock)
  | (none, p) => ((⟨NoInstallationState, ""⟩, none), p.Unlock)

/-- The function `ConvertToComponentList`. -/
def ConvertToComponentList (components : List KymaComponentConfig) : ComponentList :=
  components.foldl
    (fun list component =>
      if component.Prerequisite then
        { list with
          Prerequisites := list.Prerequisites ++ [⟨component.Component, component.Namespace⟩] }
      else
        { list with
          Components := list.Components ++ [⟨component.Component, component.Namespace⟩] })
    ⟨[], []⟩

/-- The engine run `a.deployer.StartKymaDeployment()`: it reports its updates through the
callback for its runtime ID, then returns its result. -/
def KymaDeployer.StartKymaDeployment (ops : AggregatorOps A) (d : KymaDeployer)
    (p : parallelInstallationService A) : Option GoError × parallelInstallationService A :=
  (d.result, d.updates.foldl (getCallbackUpdate ops d.runtimeID) p)

/-- The closure of the `go` statement in `AsyncDeployment.StartKymaDeployment`, with the two
callbacks the method was given; `p` is the service as it is when the goroutine runs. -/
def AsyncDeployment.run (ops : AggregatorOps A) (a : AsyncDeployment)
    (success : parallelInstallationService A → parallelInstallationService A)
    (error : GoError → parallelInstallationService A → parallelInstallationService A)
    (p : parallelInstallationService A) : parallelInstallationService A :=
  match a.deployer.StartKymaDeployment ops p with
  | (some err, p) => error err p
  | (none, p) => success p

/-- The method `AsyncDeployment.StartKymaDeployment(success, error)`: the `go` statement starts
one goroutine and the method returns at once.  The result is the service as the caller finds
it after the call, and the goroutines the call has started, each given as what its body does
to the service when it runs. -/
def AsyncDeployment.StartKymaDeployment (ops : AggregatorOps A) (a : AsyncDeployment)
    (success : parallelInstallationService A → parallelInstallationService A)
    (error : GoError → parallelInstallationService A → parallelInstallationService A)
    (p : parallelInstallationService A) :
    parallelInstallationService A ×
      List (parallelInstallationService A → parallelInstallationService A) :=
  ({ p.emit (.go a) with goroutines := p.goroutines ++ [a] }, [a.run ops success error])

/-- The method `TriggerInstallation`.  `SetOverrides` is the package function of that name,
which fills the builder and may fail; `kymaProfile` is a pointer, `none` when nil.  The
goroutine started in the last step is the one `AsyncDeployment.StartKymaDeployment` starts for
`callbackSuccess` and `callbackErrors`; the service records it in `goroutines`. -/
def TriggerInstallation (ops : AggregatorOps A)
    (SetOverrides : Builder → List KymaComponentConfig → Configuration → Builder × Option GoError)
    (p : parallelInstallationService A) (runtimeID kubeconfigRaw : String)
    (kymaProfile : Option String) (release : Release) (globalConfig : Configuration)
    (componentsConfig : List KymaComponentConfig) :
    Outcome (Option GoError) × parallelInstallationService A :=
  let p := p.Infof "Installation triggered"
  let p := p.Infof "Collect all require components"
  let p := p.emit (.getResourcePaths release.Version)
  match p.pathFetcher release.Version componentsConfig with
  | (_, _, some err) => (.returned (Wrap (some err) "while collecting all components"), p)
  | (resourcePath, installationResourcePath, none) =>
    let p := p.Infof "Inject overrides"
    let p := p.emit .setOverrides
    match SetOverrides ⟨[]⟩ componentsConfig globalConfig with
    | (_, some err) =>
      (.returned (Wrap (some err) "while set overrides to the OverridesBuilder"), p)
    | (builder, none) =>
      match kymaProfile with
      | none => (.panicked "invalid memory address or nil pointer dereference", p)
      | some profile =>
        let installationCfg : Config :=
          { WorkersCount := 4
            CancelTimeout := p.cancelTimeout
            QuitTimeout := wrapInt64 (p.cancelTimeout + 5 * Minute)
            HelmTimeoutSeconds := 60 * 8
            BackoffInitialIntervalSeconds := 3
            BackoffMaxElapsedTimeSeconds := 60 * 5
            Log := runtimeID
            HelmMaxRevisionHistory := 10
            Profile := profile
            ComponentList := ConvertToComponentList componentsConfig
            ResourcePath := resourcePath
            InstallationResourcePath := installationResourcePath
            KubeconfigSource := ⟨kubeconfigRaw⟩
            Version := release.Version }
        let p := p.Infof "Start deployment process"
        let p := p.emit (.createDeployer runtimeID installationCfg)
        let deployer := p.createDeployer runtimeID installationCfg builder
        match ops.NewComponentsStatus componentsConfig with
        | none => (.panicked "NewComponentsStatus", p)
        | some status =>
          let p := p.store runtimeID status
          let asyncDeployment : AsyncDeployment := ⟨deployer⟩
          let p := (asyncDeployment.StartKymaDeployment ops callbackSuccess callbackErrors p).1
          (.returned none, p)

/-- The service after `n` polls of `runtimeID` in a row, with nothing happening in between. -/
def pollTimes (ops : AggregatorOps A) (runtimeID : String) (n : Nat)
    (p : parallelInstallationService A) : parallelInstallationService A :=
  (fun q => (CheckInstallationState ops q runtimeID).2)^[n] p

end Operations

/-- The calls of `ConsumeEvent` in a trace, in order, each with the runtime ID whose aggregator
received the event. -/
def consumeCalls (t : List Effect) : List (String × ProcessUpdate) :=
  t.filterMap fun e =>
    match e with
    | .consumeEvent runtimeID event => some (runtimeID, event)
    | _ => none

/-- The map accesses of a trace that were made while the mutex was not held. -/
def unguardedAccesses (t : List Effect) : List Effect :=
  t.filter fun e =>
    match e with
    | .mapLookup _ held => !held
    | .mapWrite _ held => !held
    | .mapDelete _ held => !held
    | _ => false

/-- The deployer creations and goroutine starts of a trace. -/
def deployerSteps (t : List Effect) : List Effect :=
  t.filter fun e =>
    match e with
    | .createDeployer _ _ => true
    | .go _ => true
    | _ => false

/-! ## The status aggregator of the sibling file, after the specification -/

/-- Modelled from the spec: the phase of one component (section 3, ComponentStatus); the type
is declared in the sibling file that defines `ComponentsStatus`. -/
inductive Phase where
  | notStarted
  | running
  | succeeded
  | failed
  deriving DecidableEq, Repr

/-- Modelled from the spec: the per-component record `ComponentStatus` (name, current phase,
optional last error), declared in the sibling file that defines `ComponentsStatus`. -/
structure ComponentStatus where
  name : String
  phase : Phase
  lastError : Option GoError
  deriving DecidableEq, Repr

/-- Modelled from the spec: the aggregator `ComponentsStatus`, an ordered collection of
component records together with the recorded fatal failure, if any. -/
structure ComponentsStatus where
  components : List ComponentStatus
  fatal : Option GoError
  deriving DecidableEq, Repr

/-- Modelled from the spec: `NewComponentsStatus`, which creates one entry per declared
component, all in the not-started phase, and fails when no component is declared. -/
def NewComponentsStatus (declared : List KymaComponentConfig) : Option ComponentsStatus :=
  match declared with
  | [] => none
  | c :: cs =>
    some ⟨(c :: cs).map fun d => ⟨d.Component, Phase.notStarted, none⟩, none⟩

/-- Modelled from the spec: `IsFinished`, true iff every declared component is in the succeeded
phase. -/
def ComponentsStatus.IsFinished (cs : ComponentsStatus) : Bool :=
  cs.components.all fun c => decide (c.phase = Phase.succeeded)

/-- Modelled from the spec: `InstallationError`, non-nil iff a fatal failure was recorded. -/
def ComponentsStatus.InstallationError (cs : ComponentsStatus) : Option GoError :=
  cs.fatal

/-- Modelled from the spec: `ComponentError`, non-nil iff some component is in the failed phase
and no fatal failure was recorded; the error names the failing component. -/
def ComponentsStatus.ComponentError (cs : ComponentsStatus) : Option GoError :=
  match cs.fatal with
  | some _ => none
  | none =>
    match cs.components.find? fun c => decide (c.phase = Phase.failed) with
    | some c => some (.new ("component " ++ c.name ++ " failed"))
    | none => none

/-- Modelled from the spec: `StatusDescription`, a synopsis with the number of succeeded,
running and failed components. -/
def ComponentsStatus.StatusDescription (cs : ComponentsStatus) : String :=
  "succeeded: " ++ toString (cs.components.countP fun c => decide (c.phase = Phase.succeeded))
    ++ ", running: " ++ toString (cs.components.countP fun c => decide (c.phase = Phase.running))
    ++ ", failed: " ++ toString (cs.components.countP fun c => decide (c.phase = Phase.failed))

/-- Modelled from the spec: the operations of `ComponentsStatus` put together.  The spec
describes `ConsumeEvent` over its own event kinds and does not say which `ProcessUpdate` is of
which kind, so `ConsumeEvent` stays a parameter. -/
def specOps (consume : ComponentsStatus → ProcessUpdate → ComponentsStatus) :
    AggregatorOps ComponentsStatus :=
  { NewComponentsStatus := NewComponentsStatus
    ConsumeEvent := consume
    IsFinished := ComponentsStatus.IsFinished
    InstallationError := ComponentsStatus.InstallationError
    ComponentError := ComponentsStatus.ComponentError
    StatusDescription := ComponentsStatus.StatusDescription }

/-! ## Concrete inputs -/

/-- An aggregator for examples: it answers with the values stored in it and keeps the events
it was given. -/
structure RecordingStatus where
  finished : Bool
  installationErr : Option GoError
  componentErr : Option GoError
  description : String
  events : List ProcessUpdate
  deriving DecidableEq, Repr

/-- The operations of the example aggregator. -/
def recordingOps : AggregatorOps RecordingStatus :=
  { NewComponentsStatus := fun _ => some ⟨false, none, none, "started", []⟩
    ConsumeEvent := fun v event => { v with events := v.events ++ [event] }
    IsFinished := fun v => v.finished
    InstallationError := fun v => v.installationErr
    ComponentError := fun v => v.componentErr
    StatusDescription := fun v => v.description }

/-- A path fetcher that finds both paths. -/
def okPaths : String → List KymaComponentConfig → String × String × Option GoError :=
  fun _ _ => ("resources", "installation-resources", none)

/-- A path fetcher that fails. -/
def noPaths : String → List KymaComponentConfig → String × String × Option GoError :=
  fun _ _ => ("", "", some (.new "release not found"))

/-- A `SetOverrides` that succeeds and adds nothing. -/
def okOverrides : Builder → List KymaComponentConfig → Configuration → Builder × Option GoError :=
  fun b _ _ => (b, none)

/-- A deployer creator whose engine reports nothing and fails. -/
def failingDeployer : String → Config → Builder → KymaDeployer :=
  fun runtimeID _ _ => ⟨runtimeID, [], some (.new "engine failed")⟩

/-- A freshly constructed service over the example aggregator. -/
def freshService : parallelInstallationService RecordingStatus :=
  NewParallelInstallationService okPaths failingDeployer 3600000000000

/-- A freshly constructed service over the aggregator of the specification. -/
def freshSpecService : parallelInstallationService ComponentsStatus :=
  NewParallelInstallationService okPaths failingDeployer 3600000000000

/-- The service `p` with `v` tracked for `runtimeID`. -/
def tracking {A : Type} (p : parallelInstallationService A) (runtimeID : String) (v : A) :
    parallelInstallationService A :=
  { p with installationStatus := Function.update p.installationStatus runtimeID (some v) }

/-- Two declared components. -/
def istioAndCore : List KymaComponentConfig :=
  [⟨"istio", "istio-system", ⟨[]⟩, true⟩, ⟨"core", "kyma-system", ⟨[]⟩, false⟩]

/-- A running update for the component `core`. -/
def runningCore : ProcessUpdate :=
  ⟨.ProcessRunning, "InstallComponents", ⟨"core", "Installed"⟩, none⟩

/-- The update that opens an installation phase. -/
def startPhase : ProcessUpdate :=
  ⟨.ProcessStart, "InstallComponents", ⟨"", ""⟩, none⟩

/-- An example aggregator that reports it is finished. -/
def finishedStatus : RecordingStatus :=
  ⟨true, none, none, "all components installed", []⟩

/-- An example aggregator that is not finished and reports a fatal error and a component error
at the same time. -/
def fatalAndComponentStatus : RecordingStatus :=
  ⟨false, some (.new "deployment timed out"), some (.new "core failed"), "", []⟩

/-- An example aggregator that is not finished and reports a component error only. -/
def componentFailedStatus : RecordingStatus :=
  ⟨false, none, some (.new "core failed"), "", []⟩

/-- An example aggregator in progress: nothing finished, nothing failed. -/
def runningStatus : RecordingStatus :=
  ⟨false, none, none, "1 of 2 components installed", []⟩

/-- A `ConsumeEvent` that leaves the aggregator as it is. -/
def ignoreUpdates : ComponentsStatus → ProcessUpdate → ComponentsStatus :=
  fun cs _ => cs

/-- An aggregator of the specification whose only component has succeeded and which has a
fatal failure on record. -/
def succeededThenFatal : ComponentsStatus :=
  ⟨[⟨"core", Phase.succeeded, none⟩], some (.new "deployment timed out")⟩

/-- The first `TriggerInstallation` for the runtime `r1` on a fresh service. -/
def triggeredOnce : Outcome (Option GoError) × parallelInstallationService RecordingStatus :=
  TriggerInstallation recordingOps okOverrides freshService "r1" "kubeconfig"
    (some "production") ⟨"1.19.0"⟩ ⟨[]⟩ istioAndCore

/-- A second `TriggerInstallation` for the same runtime `r1`, right after the first. -/
def triggeredTwice : Outcome (Option GoError) × parallelInstallationService RecordingStatus :=
  TriggerInstallation recordingOps okOverrides triggeredOnce.2 "r1" "kubeconfig"
    (some "production") ⟨"1.19.0"⟩ ⟨[]⟩ istioAndCore

/-- A `TriggerInstallation` on a fresh service with a nil `kymaProfile`. -/
def triggeredWithoutProfile :
    Outcome (Option GoError) × parallelInstallationService RecordingStatus :=
  TriggerInstallation recordingOps okOverrides freshService "r1" "kubeconfig"
    none ⟨"1.19.0"⟩ ⟨[]⟩ istioAndCore

/-- A fresh service whose path fetcher fails. -/
def serviceWithoutPaths : parallelInstallationService RecordingStatus :=
  NewParallelInstallationService noPaths failingDeployer 3600000000000

/-- A `TriggerInstallation` on a fresh service over the aggregator of the specification. -/
def specTriggered : Outcome (Option GoError) × parallelInstallationService ComponentsStatus :=
  TriggerInstallation (specOps ignoreUpdates) okOverrides freshSpecService "r1" "kubeconfig"
    (some "production") ⟨"1.19.0"⟩ ⟨[]⟩ istioAndCore

/-- The engine configurations handed to the deployer creator in a trace, in order. -/
def createdConfigs (t : List Effect) : List Config :=
  t.filterMap fun e =>
    match e with
    | .createDeployer _ cfg => some cfg
    | _ => none

/-- The lines of a trace that went to the package-level logger; only the two terminal
callbacks `callbackSuccess` and `callbackErrors` write there. -/
def terminalCalls (t : List Effect) : List Effect :=
  t.filter fun e =>
    match e with
    | .stdlog _ _ => true
    | _ => false

/-- The steps of a trace other than lines of the service logger. -/
def nonLogSteps (t : List Effect) : List Effect :=
  t.filter fun e =>
    match e with
    | .log _ _ => false
    | _ => true

/-- An update of a kind the callback does not know. -/
def pausedUpdate : ProcessUpdate :=
  ⟨.other "ProcessPaused", "InstallComponents", ⟨"core", "Paused"⟩, none⟩

/-- A timeout failure reported by the engine. -/
def timeoutUpdate : ProcessUpdate :=
  ⟨.ProcessTimeoutFailure, "InstallComponents", ⟨"core", "Error"⟩,
    some (.new "deployment timed out")⟩

/-- A background task whose engine reports one update for `r1` and succeeds. -/
def succeedingDeployment : AsyncDeployment :=
  ⟨⟨"r1", [runningCore], none⟩⟩

/-- A background task whose engine reports a timeout for `r1` and fails. -/
def failingDeployment : AsyncDeployment :=
  ⟨⟨"r1", [timeoutUpdate], some (.new "engine failed")⟩⟩

/-- A fresh service configured with the largest `time.Duration` as cancel timeout. -/
def maxTimeoutService : parallelInstallationService RecordingStatus :=
  NewParallelInstallationService okPaths failingDeployer 9223372036854775807

/-- A `TriggerInstallation` on the service with the largest cancel timeout. -/
def triggeredAtMaxTimeout :
    Outcome (Option GoError) × parallelInstallationService RecordingStatus :=
  TriggerInstallation recordingOps okOverrides maxTimeoutService "r1" "kubeconfig"
    (some "production") ⟨"1.19.0"⟩ ⟨[]⟩ istioAndCore

/-- A `TriggerInstallation` for `r1` on a service that already tracks `r1` and `r2`. -/
def retriggered : Outcome (Option GoError) × parallelInstallationService RecordingStatus :=
  TriggerInstallation recordingOps okOverrides
    (tracking (tracking freshService "r1" componentFailedStatus) "r2" runningStatus)
    "r1" "kubeconfig" (some "production") ⟨"1.19.0"⟩ ⟨[]⟩ istioAndCore

/-! ## Theorems -/

section Theorems

variable {A : Type}

/-! ### What `CheckInstallationState` returns, case by case -/

theorem check_absent (ops : AggregatorOps A) (p : parallelInstallationService A)
    (runtimeID : String) (h : p.installationStatus runtimeID = none) :
    (CheckInstallationState ops p runtimeID).1 = (⟨NoInstallationState, ""⟩, none) ∧
    (CheckInstallationState ops p runtimeID).2.installationStatus = p.installationStatus := by
  simp [CheckInstallationState, parallelInstallationService.Lock,
    parallelInstallationService.Unlock, parallelInstallationService.lookup,
    parallelInstallationService.emit, h]

theorem check_finished (ops : AggregatorOps A) (p : parallelInstallationService A)
    (runtimeID : String) (v : A) (hv : p.installationStatus runtimeID = some v)
    (hf : ops.IsFinished v = true) :
    (CheckInstallationState ops p runtimeID).1 =
      (⟨StateInstalled, ops.StatusDescription v⟩, none) ∧
    (CheckInstallationState ops p runtimeID).2.installationStatus =
      Function.update p.installationStatus runtimeID none := by
  simp [CheckInstallationState, parallelInstallationService.Lock,
    parallelInstallationService.Unlock, parallelInstallationService.lookup,
    parallelInstallationService.delete, parallelInstallationService.Infof,
    parallelInstallationService.emit, hv, hf]

theorem check_fatal (ops : AggregatorOps A) (p : parallelInstallationService A)
    (runtimeID : String) (v : A) (err : GoError)
    (hv : p.installationStatus runtimeID = some v)
    (hf : ops.IsFinished v = false) (he : ops.InstallationError v = some err) :
    (CheckInstallationState ops p runtimeID).1 =
      (⟨StateError, ""⟩, some ⟨"Installation failed", false⟩) ∧
    (CheckInstallationState ops p runtimeID).2.installationStatus =
      Function.update p.installationStatus runtimeID none := by
  simp [CheckInstallationState, parallelInstallationService.Lock,
    parallelInstallationService.Unlock, parallelInstallationService.lookup,
    parallelInstallationService.delete, parallelInstallationService.Infof,
    parallelInstallationService.emit, hv, hf, he]

theorem check_component (ops : AggregatorOps A) (p : parallelInstallationService A)
    (runtimeID : String) (v : A) (err : GoError)
    (hv : p.installationStatus runtimeID = some v)
    (hf : ops.IsFinished v = false) (he : ops.InstallationError v = none)
    (hc : ops.ComponentError v = some err) :
    (CheckInstallationState ops p runtimeID).1 =
      (⟨StateError, ""⟩, some ⟨"Component installation failed", true⟩) ∧
    (CheckInstallationState ops p runtimeID).2.installationStatus = p.installationStatus := by
  simp [CheckInstallationState, parallelInstallationService.Lock,
    parallelInstallationService.Unlock, parallelInstallationService.lookup,
    parallelInstallationService.Errorf,
    parallelInstallationService.emit, hv, hf, he, hc]

theorem check_running (ops : AggregatorOps A) (p : parallelInstallationService A)
    (runtimeID : String) (v : A)
    (hv : p.installationStatus runtimeID = some v)
    (hf : ops.IsFinished v = false) (he : ops.InstallationError v = none)
    (hc : ops.ComponentError v = none) :
    (CheckInstallationState ops p runtimeID).1 =
      (⟨StateInProgress, ops.StatusDescription v⟩, none) ∧
    (CheckInstallationState ops p runtimeID).2.installationStatus = p.installationStatus := by
  simp [CheckInstallationState, parallelInstallationService.Lock,
    parallelInstallationService.Unlock, parallelInstallationService.lookup,
    parallelInstallationService.emit, hv, hf, he, hc]

theorem tracking_lookup (p : parallelInstallationService A) (runtimeID : String) (v : A) :
    (tracking p runtimeID v).installationStatus runtimeID = some v := by
  simp [tracking]

/-- After any number of polls that each leave the map alone, the map is the one we began
with. -/
theorem pollTimes_map (ops : AggregatorOps A) (runtimeID : String)
    (p : parallelInstallationService A)
    (keep : ∀ q : parallelInstallationService A, q.installationStatus = p.installationStatus →
      (CheckInstallationState ops q runtimeID).2.installationStatus = q.installationStatus)
    (n : Nat) : (pollTimes ops runtimeID n p).installationStatus = p.installationStatus := by
  induction n with
  | zero => rfl
  | succ k ih =>
    have step : pollTimes ops runtimeID (k + 1) p =
        (CheckInstallationState ops (pollTimes ops runtimeID k p) runtimeID).2 := by
      simp only [pollTimes, Function.iterate_succ_apply']
    rw [step, keep _ ih, ih]

/-! ### Polling a tracked runtime -/

/-- C1: when the aggregator stored for `runtimeID` reports `IsFinished() = true`,
`CheckInstallationState` returns the state `Installed` with that aggregator's
`StatusDescription()` and a nil error and removes the entry, so the next
`CheckInstallationState` for the same runtime ID returns `NoInstallation`. -/
theorem checkInstallationState_finished (ops : AggregatorOps A)
    (p : parallelInstallationService A) (runtimeID : String) (v : A)
    (hv : p.installationStatus runtimeID = some v) (hf : ops.IsFinished v = true) :
    (CheckInstallationState ops p runtimeID).1 =
      (⟨StateInstalled, ops.StatusDescription v⟩, none) ∧
    (CheckInstallationState ops p runtimeID).2.installationStatus runtimeID = none ∧
    (CheckInstallationState ops (CheckInstallationState ops p runtimeID).2 runtimeID).1 =
      (⟨NoInstallationState, ""⟩, none) := by
  have h := check_finished ops p runtimeID v hv hf
  have gone : (CheckInstallationState ops p runtimeID).2.installationStatus runtimeID = none := by
    rw [h.2]; simp
  exact ⟨h.1, gone, (check_absent ops _ runtimeID gone).1⟩

theorem checkInstallationState_finished_witness :
    (tracking freshService "r1" finishedStatus).installationStatus "r1" = some finishedStatus ∧
    recordingOps.IsFinished finishedStatus = true ∧
    (CheckInstallationState recordingOps (tracking freshService "r1" finishedStatus) "r1").1 =
      (⟨StateInstalled, "all components installed"⟩, none) ∧
    (CheckInstallationState recordingOps
      (tracking freshService "r1" finishedStatus) "r1").2.installationStatus "r1" = none ∧
    (CheckInstallationState recordingOps
      (CheckInstallationState recordingOps
        (tracking freshService "r1" finishedStatus) "r1").2 "r1").1 =
      (⟨NoInstallationState, ""⟩, none) :=
  ⟨tracking_lookup _ _ _, rfl,
    checkInstallationState_finished recordingOps (tracking freshService "r1" finishedStatus)
      "r1" finishedStatus (tracking_lookup _ _ _) rfl⟩

/-- C2: when the aggregator stored for `runtimeID` has `IsFinished() = false` and a non-nil
`InstallationError()`, `CheckInstallationState` returns the state `Error` with an
`InstallationError` whose `Recoverable` flag is false and deletes the entry, so the next
`CheckInstallationState` returns `NoInstallation`; nothing is assumed about
`ComponentError()`, so this holds also when it is non-nil. -/
theorem checkInstallationState_fatal (ops : AggregatorOps A)
    (p : parallelInstallationService A) (runtimeID : String) (v : A) (err : GoError)
    (hv : p.installationStatus runtimeID = some v) (hf : ops.IsFinished v = false)
    (he : ops.InstallationError v = some err) :
    (CheckInstallationState ops p runtimeID).1.1.State = StateError ∧
    (CheckInstallationState ops p runtimeID).1.2 = some ⟨"Installation failed", false⟩ ∧
    (CheckInstallationState ops p runtimeID).2.installationStatus runtimeID = none ∧
    (CheckInstallationState ops (CheckInstallationState ops p runtimeID).2 runtimeID).1 =
      (⟨NoInstallationState, ""⟩, none) := by
  have h := check_fatal ops p runtimeID v err hv hf he
  have gone : (CheckInstallationState ops p runtimeID).2.installationStatus runtimeID = none := by
    rw [h.2]; simp
  refine ⟨?_, ?_, gone, (check_absent ops _ runtimeID gone).1⟩
  · rw [h.1]
  · rw [h.1]

theorem checkInstallationState_fatal_witness :
    (tracking freshService "r1" fatalAndComponentStatus).installationStatus "r1" =
      some fatalAndComponentStatus ∧
    recordingOps.IsFinished fatalAndComponentStatus = false ∧
    recordingOps.InstallationError fatalAndComponentStatus =
      some (.new "deployment timed out") ∧
    recordingOps.ComponentError fatalAndComponentStatus = some (.new "core failed") ∧
    (CheckInstallationState recordingOps
      (tracking freshService "r1" fatalAndComponentStatus) "r1").1.1.State = StateError ∧
    (CheckInstallationState recordingOps
      (tracking freshService "r1" fatalAndComponentStatus) "r1").1.2 =
      some ⟨"Installation failed", false⟩ ∧
    (CheckInstallationState recordingOps
      (tracking freshService "r1" fatalAndComponentStatus) "r1").2.installationStatus "r1" =
      none ∧
    (CheckInstallationState recordingOps
      (CheckInstallationState recordingOps
        (tracking freshService "r1" fatalAndComponentStatus) "r1").2 "r1").1 =
      (⟨NoInstallationState, ""⟩, none) :=
  ⟨tracking_lookup _ _ _, rfl, rfl, rfl,
    checkInstallationState_fatal recordingOps (tracking freshService "r1" fatalAndComponentStatus)
      "r1" fatalAndComponentStatus (.new "deployment timed out") (tracking_lookup _ _ _) rfl rfl⟩

/-- C3: when the aggregator stored for `runtimeID` has `IsFinished() = false`, a nil
`InstallationError()` and a non-nil `ComponentError()`, `CheckInstallationState` returns the
state `Error` with an `InstallationError` whose `Recoverable` flag is true and leaves the map
unchanged; so after any number `n` of such polls in a row the map is still the same and the
next poll returns the same recoverable error. -/
theorem checkInstallationState_component_error (ops : AggregatorOps A)
    (p : parallelInstallationService A) (runtimeID : String) (v : A) (err : GoError)
    (hv : p.installationStatus runtimeID = some v) (hf : ops.IsFinished v = false)
    (he : ops.InstallationError v = none) (hc : ops.ComponentError v = some err) (n : Nat) :
    (CheckInstallationState ops p runtimeID).1 =
      (⟨StateError, ""⟩, some ⟨"Component installation failed", true⟩) ∧
    (CheckInstallationState ops p runtimeID).2.installationStatus = p.installationStatus ∧
    (pollTimes ops runtimeID n p).installationStatus = p.installationStatus ∧
    (CheckInstallationState ops (pollTimes ops runtimeID n p) runtimeID).1 =
      (CheckInstallationState ops p runtimeID).1 := by
  have h := check_component ops p runtimeID v err hv hf he hc
  have keep : ∀ q : parallelInstallationService A,
      q.installationStatus = p.installationStatus →
      (CheckInstallationState ops q runtimeID).2.installationStatus = q.installationStatus :=
    fun q hq => (check_component ops q runtimeID v err (by rw [hq, hv]) hf he hc).2
  have same := pollTimes_map ops runtimeID p keep n
  refine ⟨h.1, h.2, same, ?_⟩
  rw [h.1]
  exact (check_component ops _ runtimeID v err (by rw [same, hv]) hf he hc).1

theorem checkInstallationState_component_error_witness :
    (tracking freshService "r1" componentFailedStatus).installationStatus "r1" =
      some componentFailedStatus ∧
    recordingOps.IsFinished componentFailedStatus = false ∧
    recordingOps.InstallationError componentFailedStatus = none ∧
    recordingOps.ComponentError componentFailedStatus = some (.new "core failed") ∧
    (CheckInstallationState recordingOps
      (tracking freshService "r1" componentFailedStatus) "r1").1 =
      (⟨StateError, ""⟩, some ⟨"Component installation failed", true⟩) ∧
    (CheckInstallationState recordingOps
      (tracking freshService "r1" componentFailedStatus) "r1").2.installationStatus =
      (tracking freshService "r1" componentFailedStatus).installationStatus ∧
    (pollTimes recordingOps "r1" 3
      (tracking freshService "r1" componentFailedStatus)).installationStatus =
      (tracking freshService "r1" componentFailedStatus).installationStatus ∧
    (CheckInstallationState recordingOps
      (pollTimes recordingOps "r1" 3 (tracking freshService "r1" componentFailedStatus))
      "r1").1 =
      (CheckInstallationState recordingOps
        (tracking freshService "r1" componentFailedStatus) "r1").1 :=
  ⟨tracking_lookup _ _ _, rfl, rfl, rfl,
    checkInstallationState_component_error recordingOps
      (tracking freshService "r1" componentFailedStatus) "r1" componentFailedStatus
      (.new "core failed") (tracking_lookup _ _ _) rfl rfl rfl 3⟩

/-- C4, as stated, fails: an aggregator whose only component has succeeded and which has a
fatal failure on record is tracked, its `InstallationError()` is non-nil, and
`CheckInstallationState` returns `Installed` with a nil error, not the state `Error`. -/
theorem checkInstallationState_fatal_not_first :
    (tracking freshSpecService "r1" succeededThenFatal).installationStatus "r1" =
      some succeededThenFatal ∧
    (specOps ignoreUpdates).InstallationError succeededThenFatal =
      some (.new "deployment timed out") ∧
    (CheckInstallationState (specOps ignoreUpdates)
      (tracking freshSpecService "r1" succeededThenFatal) "r1").1 =
      (⟨"Installed", succeededThenFatal.StatusDescription⟩, none) ∧
    (CheckInstallationState (specOps ignoreUpdates)
      (tracking freshSpecService "r1" succeededThenFatal) "r1").1.1.State ≠ StateError :=
  ⟨tracking_lookup _ _ _, rfl,
    (check_finished (specOps ignoreUpdates) (tracking freshSpecService "r1" succeededThenFatal)
      "r1" succeededThenFatal (tracking_lookup _ _ _) rfl).1, by decide⟩

/-- C4, amended: for a tracked aggregator whose `InstallationError()` is non-nil,
`CheckInstallationState` purges the entry; it returns the state `Error` with a non-recoverable
`InstallationError`, whatever `ComponentError()` reports, when `IsFinished()` is false, and it
returns `Installed` with a nil error when `IsFinished()` is true. -/
theorem checkInstallationState_fatal_after_finished (ops : AggregatorOps A)
    (p : parallelInstallationService A) (runtimeID : String) (v : A) (err : GoError)
    (hv : p.installationStatus runtimeID = some v)
    (he : ops.InstallationError v = some err) :
    (CheckInstallationState ops p runtimeID).2.installationStatus runtimeID = none ∧
    (CheckInstallationState ops p runtimeID).1 =
      (if ops.IsFinished v then (⟨StateInstalled, ops.StatusDescription v⟩, none)
       else (⟨StateError, ""⟩, some ⟨"Installation failed", false⟩)) := by
  cases hf : ops.IsFinished v with
  | true =>
    have h := check_finished ops p runtimeID v hv hf
    refine ⟨by rw [h.2]; simp, ?_⟩
    rw [h.1]; simp
  | false =>
    have h := check_fatal ops p runtimeID v err hv hf he
    refine ⟨by rw [h.2]; simp, ?_⟩
    rw [h.1]; simp

theorem checkInstallationState_fatal_after_finished_witness :
    (tracking freshSpecService "r1" succeededThenFatal).installationStatus "r1" =
      some succeededThenFatal ∧
    (specOps ignoreUpdates).InstallationError succeededThenFatal =
      some (.new "deployment timed out") ∧
    (CheckInstallationState (specOps ignoreUpdates)
      (tracking freshSpecService "r1" succeededThenFatal) "r1").2.installationStatus "r1" =
      none ∧
    (CheckInstallationState (specOps ignoreUpdates)
      (tracking freshSpecService "r1" succeededThenFatal) "r1").1 =
      (if (specOps ignoreUpdates).IsFinished succeededThenFatal then
        (⟨StateInstalled, (specOps ignoreUpdates).StatusDescription succeededThenFatal⟩, none)
       else (⟨StateError, ""⟩, some ⟨"Installation failed", false⟩)) :=
  ⟨tracking_lookup _ _ _, rfl,
    checkInstallationState_fatal_after_finished (specOps ignoreUpdates)
      (tracking freshSpecService "r1" succeededThenFatal) "r1" succeededThenFatal
      (.new "deployment timed out") (tracking_lookup _ _ _) rfl⟩

/-- C7: for a runtime ID that has no entry in the map, `CheckInstallationState` returns the
state `NoInstallation` with a nil error and leaves the map unchanged; on a freshly constructed
service this is so for every runtime ID. -/
theorem checkInstallationState_untracked (ops : AggregatorOps A)
    (p : parallelInstallationService A) (runtimeID : String)
    (h : p.installationStatus runtimeID = none) :
    (CheckInstallationState ops p runtimeID).1 = (⟨NoInstallationState, ""⟩, none) ∧
    (CheckInstallationState ops p runtimeID).2.installationStatus = p.installationStatus ∧
    ∀ (pathFetcher : String → List KymaComponentConfig → String × String × Option GoError)
      (creator : String → Config → Builder → KymaDeployer) (timeout : Int) (other : String),
      (CheckInstallationState ops
        (NewParallelInstallationService pathFetcher creator timeout) other).1 =
        (⟨NoInstallationState, ""⟩, none) :=
  ⟨(check_absent ops p runtimeID h).1, (check_absent ops p runtimeID h).2,
    fun _ _ _ other => (check_absent ops _ other rfl).1⟩

theorem checkInstallationState_untracked_witness :
    (tracking freshService "r1" runningStatus).installationStatus "r2" = none ∧
    (CheckInstallationState recordingOps (tracking freshService "r1" runningStatus) "r2").1 =
      (⟨NoInstallationState, ""⟩, none) ∧
    (CheckInstallationState recordingOps
      (tracking freshService "r1" runningStatus) "r2").2.installationStatus =
      (tracking freshService "r1" runningStatus).installationStatus :=
  have h : (tracking freshService "r1" runningStatus).installationStatus "r2" = none := by
    simp [tracking, freshService, NewParallelInstallationService]
  ⟨h, (checkInstallationState_untracked recordingOps _ "r2" h).1,
    (checkInstallationState_untracked recordingOps _ "r2" h).2.1⟩

/-! ### The update callback -/

theorem consumeCalls_append (t u : List Effect) :
    consumeCalls (t ++ u) = consumeCalls t ++ consumeCalls u := by
  simp [consumeCalls, List.filterMap_append]

theorem deployerSteps_append (t u : List Effect) :
    deployerSteps (t ++ u) = deployerSteps t ++ deployerSteps u := by
  simp [deployerSteps, List.filter_append]

theorem showCompStatus_keeps (p : parallelInstallationService A) (comp : KymaComponent) :
    (showCompStatus p comp).installationStatus = p.installationStatus ∧
    consumeCalls (showCompStatus p comp).trace = consumeCalls p.trace := by
  unfold showCompStatus
  split <;> simp [parallelInstallationService.Infof, parallelInstallationService.emit,
    consumeCalls_append, consumeCalls]

theorem consumeEvent_tracked (ops : AggregatorOps A) (runtimeID : String)
    (p : parallelInstallationService A) (event : ProcessUpdate) (v : A)
    (hv : p.installationStatus runtimeID = some v) :
    (consumeEvent ops runtimeID p event).installationStatus =
      Function.update p.installationStatus runtimeID (some (ops.ConsumeEvent v event)) ∧
    consumeCalls (consumeEvent ops runtimeID p event).trace =
      consumeCalls p.trace ++ [(runtimeID, event)] := by
  simp [consumeEvent, parallelInstallationService.Lock, parallelInstallationService.Unlock,
    parallelInstallationService.lookup, parallelInstallationService.consume,
    parallelInstallationService.emit, hv, consumeCalls_append, consumeCalls]

theorem consumeEvent_untracked (ops : AggregatorOps A) (runtimeID : String)
    (p : parallelInstallationService A) (event : ProcessUpdate)
    (hv : p.installationStatus runtimeID = none) :
    (consumeEvent ops runtimeID p event).installationStatus = p.installationStatus ∧
    consumeCalls (consumeEvent ops runtimeID p event).trace = consumeCalls p.trace := by
  simp [consumeEvent, parallelInstallationService.Lock, parallelInstallationService.Unlock,
    parallelInstallationService.lookup, parallelInstallationService.Warnf,
    parallelInstallationService.emit, hv, consumeCalls_append, consumeCalls]

theorem consumeEvent_after_errorf (ops : AggregatorOps A) (runtimeID : String)
    (p : parallelInstallationService A) (event : ProcessUpdate) (v : A)
    (hv : p.installationStatus runtimeID = some v) (msg : String) :
    (consumeEvent ops runtimeID (p.Errorf msg) event).installationStatus =
      Function.update p.installationStatus runtimeID (some (ops.ConsumeEvent v event)) ∧
    consumeCalls (consumeEvent ops runtimeID (p.Errorf msg) event).trace =
      consumeCalls p.trace ++ [(runtimeID, event)] := by
  have h := consumeEvent_tracked ops runtimeID (p.Errorf msg) event v hv
  refine ⟨h.1, ?_⟩
  rw [h.2]
  simp [parallelInstallationService.Errorf, parallelInstallationService.emit,
    consumeCalls_append, consumeCalls]

/-- An update of one of the four forwarded kinds, arriving for a tracked runtime, is consumed
once by the tracked aggregator. -/
theorem callback_forwards (ops : AggregatorOps A) (runtimeID : String)
    (p : parallelInstallationService A) (update : ProcessUpdate) (v : A)
    (hv : p.installationStatus runtimeID = some v)
    (hk : update.Event = .ProcessRunning ∨ update.Event = .ProcessExecutionFailure ∨
      update.Event = .ProcessForceQuitFailure ∨ update.Event = .ProcessTimeoutFailure) :
    (getCallbackUpdate ops runtimeID p update).installationStatus =
      Function.update p.installationStatus runtimeID (some (ops.ConsumeEvent v update)) ∧
    consumeCalls (getCallbackUpdate ops runtimeID p update).trace =
      consumeCalls p.trace ++ [(runtimeID, update)] := by
  rcases hk with hk | hk | hk | hk
  · have hs := showCompStatus_keeps p update.Component
    have hc := consumeEvent_tracked ops runtimeID (showCompStatus p update.Component) update v
      (by rw [hs.1, hv])
    simp only [getCallbackUpdate, hk]
    rw [hc.1, hc.2, hs.1, hs.2]
    exact ⟨rfl, rfl⟩
  all_goals
    simp only [getCallbackUpdate, hk]
    exact consumeEvent_after_errorf ops runtimeID p update v hv _

/-- An update of kind `ProcessStart` or `ProcessFinished` is only logged. -/
theorem callback_logs_only (ops : AggregatorOps A) (runtimeID : String)
    (p : parallelInstallationService A) (update : ProcessUpdate)
    (hk : update.Event = .ProcessStart ∨ update.Event = .ProcessFinished) :
    (getCallbackUpdate ops runtimeID p update).installationStatus = p.installationStatus ∧
    consumeCalls (getCallbackUpdate ops runtimeID p update).trace = consumeCalls p.trace := by
  rcases hk with hk | hk
  · simp only [getCallbackUpdate, hk]
    have hs := showCompStatus_keeps
      (p.Infof ("Starting installation phase \x27" ++ update.Phase ++ "\x27")) update.Component
    rw [hs.1, hs.2]
    simp [parallelInstallationService.Infof, parallelInstallationService.emit,
      consumeCalls_append, consumeCalls]
  · simp [getCallbackUpdate, hk, parallelInstallationService.Infof,
      parallelInstallationService.emit, consumeCalls_append, consumeCalls]

/-- C5, as stated, fails: with an aggregator tracked for `r1`, the callback for `r1` receives
an update of kind `ProcessStart`; no call of `ConsumeEvent` is made and the aggregator has not
been given the update. -/
theorem callback_start_not_consumed :
    (tracking freshService "r1" runningStatus).installationStatus "r1" = some runningStatus ∧
    startPhase.Event = .ProcessStart ∧
    consumeCalls (getCallbackUpdate recordingOps "r1"
      (tracking freshService "r1" runningStatus) startPhase).trace = [] ∧
    (getCallbackUpdate recordingOps "r1"
      (tracking freshService "r1" runningStatus) startPhase).installationStatus "r1" =
      some runningStatus ∧
    runningStatus.events = [] := by
  refine ⟨tracking_lookup _ _ _, rfl, ?_, ?_, rfl⟩
  · rfl
  · rfl

/-- C5, amended: for a runtime ID that has an entry in the map, the callback returned by
`getCallbackUpdate(runtimeID)` passes an update of kind `ProcessRunning`,
`ProcessExecutionFailure`, `ProcessForceQuitFailure` or `ProcessTimeoutFailure` to the entry's
`ConsumeEvent` exactly once; an update of kind `ProcessStart` or `ProcessFinished` is logged
and not passed to `ConsumeEvent`, and the map stays as it is. -/
theorem callback_feeds_aggregator (ops : AggregatorOps A) (runtimeID : String)
    (p : parallelInstallationService A) (update : ProcessUpdate) (v : A)
    (hv : p.installationStatus runtimeID = some v) :
    ((update.Event = .ProcessRunning ∨ update.Event = .ProcessExecutionFailure ∨
        update.Event = .ProcessForceQuitFailure ∨ update.Event = .ProcessTimeoutFailure) →
      consumeCalls (getCallbackUpdate ops runtimeID p update).trace =
        consumeCalls p.trace ++ [(runtimeID, update)] ∧
      (getCallbackUpdate ops runtimeID p update).installationStatus runtimeID =
        some (ops.ConsumeEvent v update)) ∧
    ((update.Event = .ProcessStart ∨ update.Event = .ProcessFinished) →
      consumeCalls (getCallbackUpdate ops runtimeID p update).trace = consumeCalls p.trace ∧
      (getCallbackUpdate ops runtimeID p update).installationStatus =
        p.installationStatus) := by
  refine ⟨fun hk => ?_, fun hk => ?_⟩
  · have h := callback_forwards ops runtimeID p update v hv hk
    refine ⟨h.2, ?_⟩
    rw [h.1]; simp
  · have h := callback_logs_only ops runtimeID p update hk
    exact ⟨h.2, h.1⟩

theorem callback_feeds_aggregator_witness :
    (tracking freshService "r1" runningStatus).installationStatus "r1" = some runningStatus ∧
    consumeCalls (getCallbackUpdate recordingOps "r1"
      (tracking freshService "r1" runningStatus) runningCore).trace =
      consumeCalls (tracking freshService "r1" runningStatus).trace ++ [("r1", runningCore)] ∧
    (getCallbackUpdate recordingOps "r1"
      (tracking freshService "r1" runningStatus) runningCore).installationStatus "r1" =
      some (recordingOps.ConsumeEvent runningStatus runningCore) :=
  ⟨tracking_lookup _ _ _,
    (callback_feeds_aggregator recordingOps "r1" (tracking freshService "r1" runningStatus)
      runningCore runningStatus (tracking_lookup _ _ _)).1 (Or.inl rfl)⟩

/-! ### Triggering an installation -/

theorem trigger_returned_nil (ops : AggregatorOps A)
    (SetOverrides : Builder → List KymaComponentConfig → Configuration → Builder × Option GoError)
    (p p' : parallelInstallationService A) (runtimeID kubeconfigRaw : String)
    (kymaProfile : Option String) (release : Release) (globalConfig : Configuration)
    (componentsConfig : List KymaComponentConfig)
    (h : TriggerInstallation ops SetOverrides p runtimeID kubeconfigRaw kymaProfile release
      globalConfig componentsConfig = (.returned none, p')) :
    ∃ status, ops.NewComponentsStatus componentsConfig = some status ∧
      p'.installationStatus = Function.update p.installationStatus runtimeID (some status) := by
  unfold TriggerInstallation at h
  simp only [] at h
  split at h
  · simp [Wrap] at h
  · split at h
    · simp [Wrap] at h
    · split at h
      · simp at h
      · split at h
        · simp at h
        · rename_i status hs
          refine ⟨status, hs, ?_⟩
          simp at h
          rw [← h]
          simp [AsyncDeployment.StartKymaDeployment, parallelInstallationService.store,
            parallelInstallationService.emit, parallelInstallationService.Infof]

/-- C6, as stated, fails: `TriggerInstallation` succeeds twice for `r1`; a `ProcessRunning`
update then arrives through the callback for `r1` that the first deployment was given. It is
passed to `ConsumeEvent` of the aggregator registered by the second trigger, which afterwards
holds the update. -/
theorem stale_update_not_dropped :
    triggeredOnce.1 = .returned none ∧
    triggeredTwice.1 = .returned none ∧
    triggeredTwice.2.installationStatus "r1" = some ⟨false, none, none, "started", []⟩ ∧
    consumeCalls (getCallbackUpdate recordingOps "r1" triggeredTwice.2 runningCore).trace =
      [("r1", runningCore)] ∧
    (getCallbackUpdate recordingOps "r1" triggeredTwice.2 runningCore).installationStatus "r1" =
      some ⟨false, none, none, "started", [runningCore]⟩ ∧
    (getCallbackUpdate recordingOps "r1" triggeredTwice.2 runningCore).installationStatus "r1" ≠
      triggeredTwice.2.installationStatus "r1" := by
  refine ⟨rfl, rfl, rfl, rfl, rfl, ?_⟩
  decide

theorem nonLogSteps_append (t u : List Effect) :
    nonLogSteps (t ++ u) = nonLogSteps t ++ nonLogSteps u := by
  simp [nonLogSteps, List.filter_append]

/-- An update of a kind the switch does not list only writes log lines. -/
theorem callback_other (ops : AggregatorOps A) (runtimeID : String)
    (p : parallelInstallationService A) (update : ProcessUpdate) (name : String)
    (hk : update.Event = .other name) :
    (getCallbackUpdate ops runtimeID p update).installationStatus = p.installationStatus ∧
    consumeCalls (getCallbackUpdate ops runtimeID p update).trace = consumeCalls p.trace ∧
    nonLogSteps (getCallbackUpdate ops runtimeID p update).trace = nonLogSteps p.trace := by
  simp only [getCallbackUpdate, hk, showCompStatus]
  split <;> simp [parallelInstallationService.Infof, parallelInstallationService.emit,
    consumeCalls_append, consumeCalls, nonLogSteps_append, nonLogSteps]

/-- An update of a forwarded kind for a runtime that is not tracked is dropped. -/
theorem callback_forwards_untracked (ops : AggregatorOps A) (runtimeID : String)
    (p : parallelInstallationService A) (update : ProcessUpdate)
    (hv : p.installationStatus runtimeID = none)
    (hk : update.Event = .ProcessRunning ∨ update.Event = .ProcessExecutionFailure ∨
      update.Event = .ProcessForceQuitFailure ∨ update.Event = .ProcessTimeoutFailure) :
    (getCallbackUpdate ops runtimeID p update).installationStatus = p.installationStatus ∧
    consumeCalls (getCallbackUpdate ops runtimeID p update).trace = consumeCalls p.trace := by
  have afterError : ∀ msg : String,
      (consumeEvent ops runtimeID (p.Errorf msg) update).installationStatus =
        p.installationStatus ∧
      consumeCalls (consumeEvent ops runtimeID (p.Errorf msg) update).trace =
        consumeCalls p.trace := by
    intro msg
    have h := consumeEvent_untracked ops runtimeID (p.Errorf msg) update hv
    refine ⟨h.1, ?_⟩
    rw [h.2]
    simp [parallelInstallationService.Errorf, parallelInstallationService.emit,
      consumeCalls_append, consumeCalls]
  rcases hk with hk | hk | hk | hk
  · have hs := showCompStatus_keeps p update.Component
    have hc := consumeEvent_untracked ops runtimeID (showCompStatus p update.Component) update
      (by rw [hs.1, hv])
    simp only [getCallbackUpdate, hk]
    rw [hc.1, hc.2, hs.1, hs.2]
    exact ⟨rfl, rfl⟩
  all_goals
    simp only [getCallbackUpdate, hk]
    exact afterError _

/-- Every update either leaves the map and the list of `ConsumeEvent` calls alone, or is
consumed once by the aggregator tracked for the callback's own runtime ID. -/
theorem callback_effect (ops : AggregatorOps A) (runtimeID : String)
    (p : parallelInstallationService A) (update : ProcessUpdate) :
    ((getCallbackUpdate ops runtimeID p update).installationStatus = p.installationStatus ∧
      consumeCalls (getCallbackUpdate ops runtimeID p update).trace = consumeCalls p.trace) ∨
    (∃ v, p.installationStatus runtimeID = some v ∧
      (getCallbackUpdate ops runtimeID p update).installationStatus =
        Function.update p.installationStatus runtimeID (some (ops.ConsumeEvent v update)) ∧
      consumeCalls (getCallbackUpdate ops runtimeID p update).trace =
        consumeCalls p.trace ++ [(runtimeID, update)]) := by
  have forwarded : (update.Event = .ProcessRunning ∨ update.Event = .ProcessExecutionFailure ∨
      update.Event = .ProcessForceQuitFailure ∨ update.Event = .ProcessTimeoutFailure) →
      ((getCallbackUpdate ops runtimeID p update).installationStatus = p.installationStatus ∧
        consumeCalls (getCallbackUpdate ops runtimeID p update).trace = consumeCalls p.trace) ∨
      (∃ v, p.installationStatus runtimeID = some v ∧
        (getCallbackUpdate ops runtimeID p update).installationStatus =
          Function.update p.installationStatus runtimeID (some (ops.ConsumeEvent v update)) ∧
        consumeCalls (getCallbackUpdate ops runtimeID p update).trace =
          consumeCalls p.trace ++ [(runtimeID, update)]) := by
    intro hk
    cases hv : p.installationStatus runtimeID with
    | none => exact Or.inl (callback_forwards_untracked ops runtimeID p update hv hk)
    | some v => exact Or.inr ⟨v, rfl, callback_forwards ops runtimeID p update v hv hk⟩
  cases hev : update.Event with
  | ProcessStart => exact Or.inl (callback_logs_only ops runtimeID p update (Or.inl hev))
  | ProcessFinished => exact Or.inl (callback_logs_only ops runtimeID p update (Or.inr hev))
  | ProcessRunning => exact forwarded (Or.inl hev)
  | ProcessExecutionFailure => exact forwarded (Or.inr (Or.inl hev))
  | ProcessForceQuitFailure => exact forwarded (Or.inr (Or.inr (Or.inl hev)))
  | ProcessTimeoutFailure => exact forwarded (Or.inr (Or.inr (Or.inr hev)))
  | other name =>
    have h := callback_other ops runtimeID p update name hev
    exact Or.inl ⟨h.1, h.2.1⟩

/-- Every branch of the update callback, for any update and any state of the service: the
update is either consumed once by the aggregator tracked for the runtime ID, or it changes
neither the map nor the list of `ConsumeEvent` calls. -/
theorem callback_consumed_or_dropped (ops : AggregatorOps A) (runtimeID : String)
    (q : parallelInstallationService A) (update : ProcessUpdate) :
    (∀ v, q.installationStatus runtimeID = some v →
      (update.Event = .ProcessRunning ∨ update.Event = .ProcessExecutionFailure ∨
        update.Event = .ProcessForceQuitFailure ∨ update.Event = .ProcessTimeoutFailure) →
      consumeCalls (getCallbackUpdate ops runtimeID q update).trace =
        consumeCalls q.trace ++ [(runtimeID, update)] ∧
      (getCallbackUpdate ops runtimeID q update).installationStatus =
        Function.update q.installationStatus runtimeID (some (ops.ConsumeEvent v update))) ∧
    (¬ (update.Event = .ProcessRunning ∨ update.Event = .ProcessExecutionFailure ∨
        update.Event = .ProcessForceQuitFailure ∨ update.Event = .ProcessTimeoutFailure) →
      consumeCalls (getCallbackUpdate ops runtimeID q update).trace = consumeCalls q.trace ∧
      (getCallbackUpdate ops runtimeID q update).installationStatus = q.installationStatus) ∧
    (q.installationStatus runtimeID = none →
      consumeCalls (getCallbackUpdate ops runtimeID q update).trace = consumeCalls q.trace ∧
      (getCallbackUpdate ops runtimeID q update).installationStatus = q.installationStatus) := by
  refine ⟨fun v hv hk => ?_, fun hk => ?_, fun hv => ?_⟩
  · have h := callback_forwards ops runtimeID q update v hv hk
    exact ⟨h.2, h.1⟩
  · cases hev : update.Event with
    | ProcessStart =>
      have h := callback_logs_only ops runtimeID q update (Or.inl hev)
      exact ⟨h.2, h.1⟩
    | ProcessFinished =>
      have h := callback_logs_only ops runtimeID q update (Or.inr hev)
      exact ⟨h.2, h.1⟩
    | other name =>
      have h := callback_other ops runtimeID q update name hev
      exact ⟨h.2.1, h.1⟩
    | ProcessRunning => exact absurd (Or.inl hev) hk
    | ProcessExecutionFailure => exact absurd (Or.inr (Or.inl hev)) hk
    | ProcessForceQuitFailure => exact absurd (Or.inr (Or.inr (Or.inl hev))) hk
    | ProcessTimeoutFailure => exact absurd (Or.inr (Or.inr (Or.inr hev))) hk
  · rcases callback_effect ops runtimeID q update with ⟨hm, hc⟩ | ⟨v, hq, _, _⟩
    · exact ⟨hc, hm⟩
    · rw [hv] at hq
      exact absurd hq (by simp)

/-- C6, amended: after `TriggerInstallation` has succeeded a second time for the same runtime
ID, the map holds the new aggregator for it, and an update delivered through the callback of
the first deployment is handled by the runtime ID alone, whatever deployment it comes from.
Delivered right after the second trigger, an update of kind `ProcessRunning`,
`ProcessExecutionFailure`, `ProcessForceQuitFailure` or `ProcessTimeoutFailure` is passed,
once, to `ConsumeEvent` of the new aggregator, and an update of any other kind reaches no
aggregator and leaves the map as it is. Delivered at any later state `q` of the service, an
update of one of these four kinds is passed, once, to `ConsumeEvent` of the aggregator then
registered for the runtime ID if there is one, an update of any other kind is only logged,
and when no entry is registered (the new one has been purged) an update of any kind is
dropped: no `ConsumeEvent` call, map unchanged. -/
theorem stale_update_reaches_new_aggregator (ops : AggregatorOps A)
    (SetOverrides : Builder → List KymaComponentConfig → Configuration → Builder × Option GoError)
    (p p1 p2 : parallelInstallationService A) (runtimeID kube1 kube2 : String)
    (profile1 profile2 : Option String) (release1 release2 : Release)
    (global1 global2 : Configuration) (components1 components2 : List KymaComponentConfig)
    (update : ProcessUpdate)
    (h1 : TriggerInstallation ops SetOverrides p runtimeID kube1 profile1 release1 global1
      components1 = (.returned none, p1))
    (h2 : TriggerInstallation ops SetOverrides p1 runtimeID kube2 profile2 release2 global2
      components2 = (.returned none, p2)) :
    ∃ fresh, ops.NewComponentsStatus components2 = some fresh ∧
      p2.installationStatus runtimeID = some fresh ∧
      ((update.Event = .ProcessRunning ∨ update.Event = .ProcessExecutionFailure ∨
          update.Event = .ProcessForceQuitFailure ∨ update.Event = .ProcessTimeoutFailure) →
        consumeCalls (getCallbackUpdate ops runtimeID p2 update).trace =
          consumeCalls p2.trace ++ [(runtimeID, update)] ∧
        (getCallbackUpdate ops runtimeID p2 update).installationStatus runtimeID =
          some (ops.ConsumeEvent fresh update)) ∧
      (¬ (update.Event = .ProcessRunning ∨ update.Event = .ProcessExecutionFailure ∨
          update.Event = .ProcessForceQuitFailure ∨ update.Event = .ProcessTimeoutFailure) →
        consumeCalls (getCallbackUpdate ops runtimeID p2 update).trace = consumeCalls p2.trace ∧
        (getCallbackUpdate ops runtimeID p2 update).installationStatus =
          p2.installationStatus) ∧
      ∀ q : parallelInstallationService A,
        (∀ v, q.installationStatus runtimeID = some v →
          (update.Event = .ProcessRunning ∨ update.Event = .ProcessExecutionFailure ∨
            update.Event = .ProcessForceQuitFailure ∨
            update.Event = .ProcessTimeoutFailure) →
          consumeCalls (getCallbackUpdate ops runtimeID q update).trace =
            consumeCalls q.trace ++ [(runtimeID, update)] ∧
          (getCallbackUpdate ops runtimeID q update).installationStatus =
            Function.update q.installationStatus runtimeID
              (some (ops.ConsumeEvent v update))) ∧
        (¬ (update.Event = .ProcessRunning ∨ update.Event = .ProcessExecutionFailure ∨
            update.Event = .ProcessForceQuitFailure ∨
            update.Event = .ProcessTimeoutFailure) →
          consumeCalls (getCallbackUpdate ops runtimeID q update).trace =
            consumeCalls q.trace ∧
          (getCallbackUpdate ops runtimeID q update).installationStatus =
            q.installationStatus) ∧
        (q.installationStatus runtimeID = none →
          consumeCalls (getCallbackUpdate ops runtimeID q update).trace =
            consumeCalls q.trace ∧
          (getCallbackUpdate ops runtimeID q update).installationStatus =
            q.installationStatus) := by
  obtain ⟨_, _, _⟩ := trigger_returned_nil ops SetOverrides p p1 runtimeID kube1 profile1
    release1 global1 components1 h1
  obtain ⟨fresh, hn, hm⟩ := trigger_returned_nil ops SetOverrides p1 p2 runtimeID kube2
    profile2 release2 global2 components2 h2
  have hv : p2.installationStatus runtimeID = some fresh := by rw [hm]; simp
  have now := callback_consumed_or_dropped ops runtimeID p2 update
  refine ⟨fresh, hn, hv, fun hk => ?_, now.2.1,
    fun q => callback_consumed_or_dropped ops runtimeID q update⟩
  have h := now.1 fresh hv hk
  refine ⟨h.1, ?_⟩
  rw [h.2]; simp

theorem stale_update_reaches_new_aggregator_witness :
    triggeredOnce = (.returned none, triggeredOnce.2) ∧
    triggeredTwice = (.returned none, triggeredTwice.2) ∧
    ∃ fresh, recordingOps.NewComponentsStatus istioAndCore = some fresh ∧
      triggeredTwice.2.installationStatus "r1" = some fresh ∧
      (getCallbackUpdate recordingOps "r1" triggeredTwice.2 runningCore).installationStatus
        "r1" = some (recordingOps.ConsumeEvent fresh runningCore) :=
  ⟨rfl, rfl,
    (stale_update_reaches_new_aggregator recordingOps okOverrides freshService triggeredOnce.2
      triggeredTwice.2 "r1" "kubeconfig" "kubeconfig" (some "production") (some "production")
      ⟨"1.19.0"⟩ ⟨"1.19.0"⟩ ⟨[]⟩ ⟨[]⟩ istioAndCore istioAndCore runningCore rfl rfl).imp
      fun _ h => ⟨h.1, h.2.1, (h.2.2.1 (Or.inl rfl)).2⟩⟩

/-- A freshly created aggregator of the specification is not finished and reports no error. -/
theorem newComponentsStatus_fresh (declared : List KymaComponentConfig)
    (fresh : ComponentsStatus) (h : NewComponentsStatus declared = some fresh) :
    fresh.IsFinished = false ∧ fresh.InstallationError = none ∧
    fresh.ComponentError = none := by
  cases declared with
  | nil => simp [NewComponentsStatus] at h
  | cons c cs =>
    simp only [NewComponentsStatus, Option.some.injEq] at h
    subst h
    refine ⟨?_, rfl, ?_⟩
    · simp [ComponentsStatus.IsFinished]
    · have hnone : List.find? (fun s : ComponentStatus => decide (s.phase = Phase.failed))
          ((c :: cs).map fun d => ⟨d.Component, Phase.notStarted, none⟩) = none := by
        rw [List.find?_eq_none]
        intro x hx
        obtain ⟨d, _, rfl⟩ := List.mem_map.mp hx
        simp
      simp only [ComponentsStatus.ComponentError, hnone]

/-- C8: after `TriggerInstallation` has succeeded (returned nil) and before any event is
consumed, `CheckInstallationState` for the same runtime ID returns the state `InProgress` with
a nil error and the fresh aggregator's `StatusDescription()`, and the entry is kept. The
aggregator is the one of the specification, whose constructor fails on an empty component
list, so a successful trigger has at least one declared component. -/
theorem checkInstallationState_after_trigger
    (consume : ComponentsStatus → ProcessUpdate → ComponentsStatus)
    (SetOverrides : Builder → List KymaComponentConfig → Configuration → Builder × Option GoError)
    (p p' : parallelInstallationService ComponentsStatus) (runtimeID kubeconfigRaw : String)
    (kymaProfile : Option String) (release : Release) (globalConfig : Configuration)
    (componentsConfig : List KymaComponentConfig)
    (h : TriggerInstallation (specOps consume) SetOverrides p runtimeID kubeconfigRaw
      kymaProfile release globalConfig componentsConfig = (.returned none, p')) :
    ∃ fresh, NewComponentsStatus componentsConfig = some fresh ∧
      (CheckInstallationState (specOps consume) p' runtimeID).1 =
        (⟨StateInProgress, fresh.StatusDescription⟩, none) ∧
      (CheckInstallationState (specOps consume) p' runtimeID).2.installationStatus runtimeID =
        some fresh := by
  obtain ⟨fresh, hn, hm⟩ := trigger_returned_nil (specOps consume) SetOverrides p p' runtimeID
    kubeconfigRaw kymaProfile release globalConfig componentsConfig h
  have hv : p'.installationStatus runtimeID = some fresh := by rw [hm]; simp
  have hf := newComponentsStatus_fresh componentsConfig fresh hn
  have hr := check_running (specOps consume) p' runtimeID fresh hv hf.1 hf.2.1 hf.2.2
  refine ⟨fresh, hn, hr.1, ?_⟩
  rw [hr.2, hv]

theorem checkInstallationState_after_trigger_witness :
    specTriggered = (.returned none, specTriggered.2) ∧
    ∃ fresh, NewComponentsStatus istioAndCore = some fresh ∧
      (CheckInstallationState (specOps ignoreUpdates) specTriggered.2 "r1").1 =
        (⟨StateInProgress, fresh.StatusDescription⟩, none) ∧
      (CheckInstallationState (specOps ignoreUpdates)
        specTriggered.2 "r1").2.installationStatus "r1" = some fresh :=
  ⟨rfl, checkInstallationState_after_trigger ignoreUpdates okOverrides freshSpecService
    specTriggered.2 "r1" "kubeconfig" (some "production") ⟨"1.19.0"⟩ ⟨[]⟩ istioAndCore rfl⟩

/-- What `TriggerInstallation` does when the path fetcher fails. -/
theorem trigger_paths_fail (ops : AggregatorOps A)
    (SetOverrides : Builder → List KymaComponentConfig → Configuration → Builder × Option GoError)
    (p : parallelInstallationService A) (runtimeID kubeconfigRaw : String)
    (kymaProfile : Option String) (release : Release) (globalConfig : Configuration)
    (componentsConfig : List KymaComponentConfig) (cause : GoError)
    (hp : (p.pathFetcher release.Version componentsConfig).2.2 = some cause) :
    (TriggerInstallation ops SetOverrides p runtimeID kubeconfigRaw kymaProfile release
      globalConfig componentsConfig).1 =
      .returned (some (.wrapped cause "while collecting all components")) ∧
    deployerSteps (TriggerInstallation ops SetOverrides p runtimeID kubeconfigRaw kymaProfile
      release globalConfig componentsConfig).2.trace = deployerSteps p.trace ∧
    (TriggerInstallation ops SetOverrides p runtimeID kubeconfigRaw kymaProfile release
      globalConfig componentsConfig).2.goroutines = p.goroutines ∧
    (TriggerInstallation ops SetOverrides p runtimeID kubeconfigRaw kymaProfile release
      globalConfig componentsConfig).2.installationStatus = p.installationStatus := by
  rcases hpf : p.pathFetcher release.Version componentsConfig with ⟨a, b, e⟩
  rw [hpf] at hp
  simp only at hp
  subst hp
  simp [TriggerInstallation, parallelInstallationService.Infof,
    parallelInstallationService.emit, hpf, Wrap, deployerSteps_append, deployerSteps]

/-- What `TriggerInstallation` does when the paths are found and `SetOverrides` fails. -/
theorem trigger_overrides_fail (ops : AggregatorOps A)
    (SetOverrides : Builder → List KymaComponentConfig → Configuration → Builder × Option GoError)
    (p : parallelInstallationService A) (runtimeID kubeconfigRaw : String)
    (kymaProfile : Option String) (release : Release) (globalConfig : Configuration)
    (componentsConfig : List KymaComponentConfig) (cause : GoError)
    (hp : (p.pathFetcher release.Version componentsConfig).2.2 = none)
    (hs : (SetOverrides ⟨[]⟩ componentsConfig globalConfig).2 = some cause) :
    (TriggerInstallation ops SetOverrides p runtimeID kubeconfigRaw kymaProfile release
      globalConfig componentsConfig).1 =
      .returned (some (.wrapped cause "while set overrides to the OverridesBuilder")) ∧
    deployerSteps (TriggerInstallation ops SetOverrides p runtimeID kubeconfigRaw kymaProfile
      release globalConfig componentsConfig).2.trace = deployerSteps p.trace ∧
    (TriggerInstallation ops SetOverrides p runtimeID kubeconfigRaw kymaProfile release
      globalConfig componentsConfig).2.goroutines = p.goroutines ∧
    (TriggerInstallation ops SetOverrides p runtimeID kubeconfigRaw kymaProfile release
      globalConfig componentsConfig).2.installationStatus = p.installationStatus := by
  rcases hpf : p.pathFetcher release.Version componentsConfig with ⟨a, b, e⟩
  rw [hpf] at hp
  simp only at hp
  subst hp
  rcases hso : SetOverrides ⟨[]⟩ componentsConfig globalConfig with ⟨b, e⟩
  rw [hso] at hs
  simp only at hs
  subst hs
  simp [TriggerInstallation, parallelInstallationService.Infof,
    parallelInstallationService.emit, hpf, hso, Wrap, deployerSteps_append, deployerSteps]

/-- What `TriggerInstallation` returns when both setup steps succeed. -/
theorem trigger_setup_ok (ops : AggregatorOps A)
    (SetOverrides : Builder → List KymaComponentConfig → Configuration → Builder × Option GoError)
    (p : parallelInstallationService A) (runtimeID kubeconfigRaw : String)
    (kymaProfile : Option String) (release : Release) (globalConfig : Configuration)
    (componentsConfig : List KymaComponentConfig)
    (hp : (p.pathFetcher release.Version componentsConfig).2.2 = none)
    (hs : (SetOverrides ⟨[]⟩ componentsConfig globalConfig).2 = none) :
    (TriggerInstallation ops SetOverrides p runtimeID kubeconfigRaw kymaProfile release
      globalConfig componentsConfig).1 =
      (match kymaProfile, ops.NewComponentsStatus componentsConfig with
       | none, _ => .panicked "invalid memory address or nil pointer dereference"
       | some _, none => .panicked "NewComponentsStatus"
       | some _, some _ => .returned none) := by
  rcases hpf : p.pathFetcher release.Version componentsConfig with ⟨a, b, e⟩
  rw [hpf] at hp
  simp only at hp
  subst hp
  rcases hso : SetOverrides ⟨[]⟩ componentsConfig globalConfig with ⟨b, e⟩
  rw [hso] at hs
  simp only at hs
  subst hs
  cases kymaProfile with
  | none =>
    simp [TriggerInstallation, parallelInstallationService.Infof,
      parallelInstallationService.emit, hpf, hso]
  | some profile =>
    cases hn : ops.NewComponentsStatus componentsConfig with
    | none =>
      simp [TriggerInstallation, parallelInstallationService.Infof,
        parallelInstallationService.emit, hpf, hso, hn]
    | some status =>
      simp [TriggerInstallation, parallelInstallationService.Infof,
        parallelInstallationService.emit, hpf, hso, hn]

/-- C9, as stated, fails: the path fetcher and `SetOverrides` both succeed, the `kymaProfile`
pointer is nil, and `TriggerInstallation` does not return nil: it panics when it dereferences
the pointer to build the engine configuration. -/
theorem triggerInstallation_nil_profile :
    (freshService.pathFetcher "1.19.0" istioAndCore).2.2 = none ∧
    (okOverrides ⟨[]⟩ istioAndCore ⟨[]⟩).2 = none ∧
    triggeredWithoutProfile.1 = .panicked "invalid memory address or nil pointer dereference" ∧
    triggeredWithoutProfile.1 ≠ .returned none := by
  refine ⟨rfl, rfl, rfl, ?_⟩
  decide

/-- C9, amended: `TriggerInstallation` returns a non-nil error if and only if
`GetResourcePaths` fails or `SetOverrides` fails; the returned error then wraps the error of
the failing step, no deployer is created or started and the map is left unchanged. When both
setup steps succeed, the `kymaProfile` pointer is not nil and the aggregator is constructed, it
returns nil, whatever deployer the creator hands back and whatever that deployer's
`StartKymaDeployment` returns later. -/
theorem triggerInstallation_setup_errors (ops : AggregatorOps A)
    (SetOverrides : Builder → List KymaComponentConfig → Configuration → Builder × Option GoError)
    (p : parallelInstallationService A) (runtimeID kubeconfigRaw : String)
    (kymaProfile : Option String) (release : Release) (globalConfig : Configuration)
    (componentsConfig : List KymaComponentConfig) :
    ((∃ e, (TriggerInstallation ops SetOverrides p runtimeID kubeconfigRaw kymaProfile release
        globalConfig componentsConfig).1 = .returned (some e)) ↔
      ((p.pathFetcher release.Version componentsConfig).2.2 ≠ none ∨
        (SetOverrides ⟨[]⟩ componentsConfig globalConfig).2 ≠ none)) ∧
    (∀ e, (TriggerInstallation ops SetOverrides p runtimeID kubeconfigRaw kymaProfile release
        globalConfig componentsConfig).1 = .returned (some e) →
      ((∃ cause, (p.pathFetcher release.Version componentsConfig).2.2 = some cause ∧
          e = .wrapped cause "while collecting all components") ∨
        (∃ cause, (SetOverrides ⟨[]⟩ componentsConfig globalConfig).2 = some cause ∧
          e = .wrapped cause "while set overrides to the OverridesBuilder")) ∧
      deployerSteps (TriggerInstallation ops SetOverrides p runtimeID kubeconfigRaw kymaProfile
        release globalConfig componentsConfig).2.trace = deployerSteps p.trace ∧
      (TriggerInstallation ops SetOverrides p runtimeID kubeconfigRaw kymaProfile release
        globalConfig componentsConfig).2.goroutines = p.goroutines ∧
      (TriggerInstallation ops SetOverrides p runtimeID kubeconfigRaw kymaProfile release
        globalConfig componentsConfig).2.installationStatus = p.installationStatus) ∧
    ((p.pathFetcher release.Version componentsConfig).2.2 = none →
      (SetOverrides ⟨[]⟩ componentsConfig globalConfig).2 = none →
      kymaProfile ≠ none → ops.NewComponentsStatus componentsConfig ≠ none →
      ∀ creator : String → Config → Builder → KymaDeployer,
        (TriggerInstallation ops SetOverrides { p with createDeployer := creator } runtimeID
          kubeconfigRaw kymaProfile release globalConfig componentsConfig).1 =
          .returned none) := by
  have okCase : (p.pathFetcher release.Version componentsConfig).2.2 = none →
      (SetOverrides ⟨[]⟩ componentsConfig globalConfig).2 = none →
      ∀ e, (TriggerInstallation ops SetOverrides p runtimeID kubeconfigRaw kymaProfile release
        globalConfig componentsConfig).1 ≠ .returned (some e) := by
    intro hp hs e
    rw [trigger_setup_ok ops SetOverrides p runtimeID kubeconfigRaw kymaProfile release
      globalConfig componentsConfig hp hs]
    cases kymaProfile <;> cases ops.NewComponentsStatus componentsConfig <;> simp
  refine ⟨⟨?_, ?_⟩, ?_, ?_⟩
  · rintro ⟨e, he⟩
    by_contra hcon
    rw [not_or, not_not, not_not] at hcon
    exact okCase hcon.1 hcon.2 e he
  · intro hfail
    cases hp : (p.pathFetcher release.Version componentsConfig).2.2 with
    | some cause =>
      exact ⟨_, (trigger_paths_fail ops SetOverrides p runtimeID kubeconfigRaw kymaProfile
        release globalConfig componentsConfig cause hp).1⟩
    | none =>
      cases hs : (SetOverrides ⟨[]⟩ componentsConfig globalConfig).2 with
      | some cause =>
        exact ⟨_, (trigger_overrides_fail ops SetOverrides p runtimeID kubeconfigRaw kymaProfile
          release globalConfig componentsConfig cause hp hs).1⟩
      | none =>
        rcases hfail with h | h
        · exact absurd hp h
        · exact absurd hs h
  · intro e he
    cases hp : (p.pathFetcher release.Version componentsConfig).2.2 with
    | some cause =>
      have h := trigger_paths_fail ops SetOverrides p runtimeID kubeconfigRaw kymaProfile
        release globalConfig componentsConfig cause hp
      rw [h.1] at he
      simp only [Outcome.returned.injEq, Option.some.injEq] at he
      exact ⟨Or.inl ⟨cause, rfl, he.symm⟩, h.2⟩
    | none =>
      cases hs : (SetOverrides ⟨[]⟩ componentsConfig globalConfig).2 with
      | some cause =>
        have h := trigger_overrides_fail ops SetOverrides p runtimeID kubeconfigRaw kymaProfile
          release globalConfig componentsConfig cause hp hs
        rw [h.1] at he
        simp only [Outcome.returned.injEq, Option.some.injEq] at he
        exact ⟨Or.inr ⟨cause, rfl, he.symm⟩, h.2⟩
      | none => exact absurd he (okCase hp hs e)
  · intro hp hs hprofile hnew creator
    rw [trigger_setup_ok ops SetOverrides { p with createDeployer := creator } runtimeID
      kubeconfigRaw kymaProfile release globalConfig componentsConfig hp hs]
    cases kymaProfile with
    | none => exact absurd rfl hprofile
    | some profile =>
      cases hn : ops.NewComponentsStatus componentsConfig with
      | none => exact absurd hn hnew
      | some status => rfl

theorem triggerInstallation_setup_errors_witness :
    (∃ e, (TriggerInstallation recordingOps okOverrides serviceWithoutPaths "r1" "kubeconfig"
      (some "production") ⟨"1.19.0"⟩ ⟨[]⟩ istioAndCore).1 = .returned (some e)) ∧
    (TriggerInstallation recordingOps okOverrides
      { freshService with createDeployer := failingDeployer } "r1" "kubeconfig"
      (some "production") ⟨"1.19.0"⟩ ⟨[]⟩ istioAndCore).1 = .returned none :=
  ⟨(triggerInstallation_setup_errors recordingOps okOverrides serviceWithoutPaths "r1"
      "kubeconfig" (some "production") ⟨"1.19.0"⟩ ⟨[]⟩ istioAndCore).1.mpr
      (Or.inl (by decide)),
    (triggerInstallation_setup_errors recordingOps okOverrides freshService "r1"
      "kubeconfig" (some "production") ⟨"1.19.0"⟩ ⟨[]⟩ istioAndCore).2.2 rfl rfl
      (by decide) (by decide) failingDeployer⟩

/-! ### The mutex -/

/-- C10: on a fresh service, whose mutex nobody holds, a successful `TriggerInstallation`
never locks the mutex and writes the map entry of `r1` while the mutex is not held. The two
other paths do take the lock: a `CheckInstallationState` and an update callback that follow
add no further unguarded map access. -/
theorem triggerInstallation_writes_without_lock :
    freshService.mux = false ∧
    triggeredOnce.1 = .returned none ∧
    Effect.lock ∉ triggeredOnce.2.trace ∧
    unguardedAccesses triggeredOnce.2.trace = [.mapWrite "r1" false] ∧
    unguardedAccesses (CheckInstallationState recordingOps triggeredOnce.2 "r1").2.trace =
      [.mapWrite "r1" false] ∧
    unguardedAccesses (getCallbackUpdate recordingOps "r1" triggeredOnce.2 runningCore).trace =
      [.mapWrite "r1" false] := by
  refine ⟨rfl, rfl, ?_, rfl, rfl, rfl⟩
  decide

/-! ### Registration, unknown updates and the shape of a poll result -/

/-- C11: when `TriggerInstallation` succeeds (returns nil), the map entry of `runtimeID` is the
new aggregator `NewComponentsStatus(componentsConfig)`, whatever was stored for that key
before, and the entry of every other runtime ID is what it was. -/
theorem triggerInstallation_registers (ops : AggregatorOps A)
    (SetOverrides : Builder → List KymaComponentConfig → Configuration → Builder × Option GoError)
    (p p' : parallelInstallationService A) (runtimeID kubeconfigRaw : String)
    (kymaProfile : Option String) (release : Release) (globalConfig : Configuration)
    (componentsConfig : List KymaComponentConfig)
    (h : TriggerInstallation ops SetOverrides p runtimeID kubeconfigRaw kymaProfile release
      globalConfig componentsConfig = (.returned none, p')) :
    ∃ status, ops.NewComponentsStatus componentsConfig = some status ∧
      p'.installationStatus runtimeID = some status ∧
      ∀ other, other ≠ runtimeID → p'.installationStatus other = p.installationStatus other := by
  obtain ⟨status, hn, hm⟩ := trigger_returned_nil ops SetOverrides p p' runtimeID
    kubeconfigRaw kymaProfile release globalConfig componentsConfig h
  refine ⟨status, hn, ?_, ?_⟩
  · rw [hm]; simp
  · intro other hne
    rw [hm, Function.update_noteq hne]

theorem triggerInstallation_registers_witness :
    retriggered = (.returned none, retriggered.2) ∧
    (tracking (tracking freshService "r1" componentFailedStatus) "r2"
      runningStatus).installationStatus "r1" = some componentFailedStatus ∧
    ∃ status, recordingOps.NewComponentsStatus istioAndCore = some status ∧
      retriggered.2.installationStatus "r1" = some status ∧
      ∀ other, other ≠ "r1" → retriggered.2.installationStatus other =
        (tracking (tracking freshService "r1" componentFailedStatus) "r2"
          runningStatus).installationStatus other :=
  ⟨rfl, rfl,
    triggerInstallation_registers recordingOps okOverrides
      (tracking (tracking freshService "r1" componentFailedStatus) "r2" runningStatus)
      retriggered.2 "r1" "kubeconfig" (some "production") ⟨"1.19.0"⟩ ⟨[]⟩ istioAndCore rfl⟩

/-- The five ways a poll can go, each with its result and its effect on the map. -/
theorem check_cases (ops : AggregatorOps A) (p : parallelInstallationService A)
    (runtimeID : String) :
    (p.installationStatus runtimeID = none ∧
      (CheckInstallationState ops p runtimeID).1 = (⟨NoInstallationState, ""⟩, none) ∧
      (CheckInstallationState ops p runtimeID).2.installationStatus = p.installationStatus) ∨
    (∃ v, p.installationStatus runtimeID = some v ∧
      (CheckInstallationState ops p runtimeID).1 =
        (⟨StateInstalled, ops.StatusDescription v⟩, none) ∧
      (CheckInstallationState ops p runtimeID).2.installationStatus =
        Function.update p.installationStatus runtimeID none) ∨
    (∃ v, p.installationStatus runtimeID = some v ∧
      (CheckInstallationState ops p runtimeID).1 =
        (⟨StateError, ""⟩, some ⟨"Installation failed", false⟩) ∧
      (CheckInstallationState ops p runtimeID).2.installationStatus =
        Function.update p.installationStatus runtimeID none) ∨
    (∃ v, p.installationStatus runtimeID = some v ∧
      (CheckInstallationState ops p runtimeID).1 =
        (⟨StateError, ""⟩, some ⟨"Component installation failed", true⟩) ∧
      (CheckInstallationState ops p runtimeID).2.installationStatus = p.installationStatus) ∨
    (∃ v, p.installationStatus runtimeID = some v ∧
      (CheckInstallationState ops p runtimeID).1 =
        (⟨StateInProgress, ops.StatusDescription v⟩, none) ∧
      (CheckInstallationState ops p runtimeID).2.installationStatus = p.installationStatus) := by
  cases hv : p.installationStatus runtimeID with
  | none => exact Or.inl ⟨rfl, check_absent ops p runtimeID hv⟩
  | some v =>
    cases hf : ops.IsFinished v with
    | true => exact Or.inr (Or.inl ⟨v, rfl, check_finished ops p runtimeID v hv hf⟩)
    | false =>
      cases he : ops.InstallationError v with
      | some err =>
        exact Or.inr (Or.inr (Or.inl ⟨v, rfl, check_fatal ops p runtimeID v err hv hf he⟩))
      | none =>
        cases hc : ops.ComponentError v with
        | some err =>
          exact Or.inr (Or.inr (Or.inr (Or.inl
            ⟨v, rfl, check_component ops p runtimeID v err hv hf he hc⟩)))
        | none =>
          exact Or.inr (Or.inr (Or.inr (Or.inr
            ⟨v, rfl, check_running ops p runtimeID v hv hf he hc⟩)))

/-- The result of a poll depends on the map only. -/
theorem check_congr (ops : AggregatorOps A) (p q : parallelInstallationService A)
    (runtimeID : String) (h : q.installationStatus = p.installationStatus) :
    (CheckInstallationState ops q runtimeID).1 = (CheckInstallationState ops p runtimeID).1 := by
  cases hv : p.installationStatus runtimeID with
  | none =>
    rw [(check_absent ops p runtimeID hv).1,
      (check_absent ops q runtimeID (by rw [h, hv])).1]
  | some v =>
    have hq : q.installationStatus runtimeID = some v := by rw [h, hv]
    cases hf : ops.IsFinished v with
    | true =>
      rw [(check_finished ops p runtimeID v hv hf).1, (check_finished ops q runtimeID v hq hf).1]
    | false =>
      cases he : ops.InstallationError v with
      | some err =>
        rw [(check_fatal ops p runtimeID v err hv hf he).1,
          (check_fatal ops q runtimeID v err hq hf he).1]
      | none =>
        cases hc : ops.ComponentError v with
        | some err =>
          rw [(check_component ops p runtimeID v err hv hf he hc).1,
            (check_component ops q runtimeID v err hq hf he hc).1]
        | none =>
          rw [(check_running ops p runtimeID v hv hf he hc).1,
            (check_running ops q runtimeID v hq hf he hc).1]

/-- C12: for an update whose kind is none of the six known kinds, the update callback only
logs: it makes no call of `ConsumeEvent`, takes no step other than log lines, and leaves the
map with every aggregator in it as it was, so a `CheckInstallationState` that follows returns
what it would have returned without the update. -/
theorem callback_unknown_kind (ops : AggregatorOps A) (runtimeID : String)
    (p : parallelInstallationService A) (update : ProcessUpdate) (polled : String)
    (hk : update.Event ≠ .ProcessStart ∧ update.Event ≠ .ProcessRunning ∧
      update.Event ≠ .ProcessFinished ∧ update.Event ≠ .ProcessExecutionFailure ∧
      update.Event ≠ .ProcessForceQuitFailure ∧ update.Event ≠ .ProcessTimeoutFailure) :
    consumeCalls (getCallbackUpdate ops runtimeID p update).trace = consumeCalls p.trace ∧
    nonLogSteps (getCallbackUpdate ops runtimeID p update).trace = nonLogSteps p.trace ∧
    (getCallbackUpdate ops runtimeID p update).installationStatus = p.installationStatus ∧
    (CheckInstallationState ops (getCallbackUpdate ops runtimeID p update) polled).1 =
      (CheckInstallationState ops p polled).1 := by
  obtain ⟨h1, h2, h3, h4, h5, h6⟩ := hk
  cases hev : update.Event with
  | other name =>
    have h := callback_other ops runtimeID p update name hev
    exact ⟨h.2.1, h.2.2, h.1, check_congr ops p _ polled h.1⟩
  | ProcessStart => exact absurd hev h1
  | ProcessRunning => exact absurd hev h2
  | ProcessFinished => exact absurd hev h3
  | ProcessExecutionFailure => exact absurd hev h4
  | ProcessForceQuitFailure => exact absurd hev h5
  | ProcessTimeoutFailure => exact absurd hev h6

theorem callback_unknown_kind_witness :
    (pausedUpdate.Event ≠ .ProcessStart ∧ pausedUpdate.Event ≠ .ProcessRunning ∧
      pausedUpdate.Event ≠ .ProcessFinished ∧ pausedUpdate.Event ≠ .ProcessExecutionFailure ∧
      pausedUpdate.Event ≠ .ProcessForceQuitFailure ∧
      pausedUpdate.Event ≠ .ProcessTimeoutFailure) ∧
    consumeCalls (getCallbackUpdate recordingOps "r1" triggeredOnce.2 pausedUpdate).trace =
      consumeCalls triggeredOnce.2.trace ∧
    nonLogSteps (getCallbackUpdate recordingOps "r1" triggeredOnce.2 pausedUpdate).trace =
      nonLogSteps triggeredOnce.2.trace ∧
    (getCallbackUpdate recordingOps "r1" triggeredOnce.2 pausedUpdate).installationStatus =
      triggeredOnce.2.installationStatus ∧
    (CheckInstallationState recordingOps
      (getCallbackUpdate recordingOps "r1" triggeredOnce.2 pausedUpdate) "r1").1 =
      (CheckInstallationState recordingOps triggeredOnce.2 "r1").1 :=
  ⟨by decide,
    callback_unknown_kind recordingOps "r1" triggeredOnce.2 pausedUpdate "r1" (by decide)⟩

/-- C14: the state returned by `CheckInstallationState` is one of `NoInstallation`,
`InProgress`, `Installed` and `Error`, and the returned error is non-nil, that is, an
`InstallationError` with its `Recoverable` flag, if and only if the state is `Error`. -/
theorem checkInstallationState_result_shape (ops : AggregatorOps A)
    (p : parallelInstallationService A) (runtimeID : String) :
    (CheckInstallationState ops p runtimeID).1.1.State ∈
      [NoInstallationState, StateInProgress, StateInstalled, StateError] ∧
    ((∃ err : InstallationError, (CheckInstallationState ops p runtimeID).1.2 = some err) ↔
      (CheckInstallationState ops p runtimeID).1.1.State = StateError) := by
  rcases check_cases ops p runtimeID with ⟨_, h, _⟩ | ⟨v, _, h, _⟩ | ⟨v, _, h, _⟩ |
    ⟨v, _, h, _⟩ | ⟨v, _, h, _⟩ <;> rw [h] <;>
    simp [NoInstallationState, StateInProgress, StateInstalled, StateError]

/-- C15: `CheckInstallationState` removes the entry of the polled runtime ID (present before,
absent after) if and only if it returns a terminal result, `Installed` or `Error` with
`Recoverable = false`; when the result is not terminal the map is unchanged; it never adds an
entry, and the entry of every other runtime ID stays what it was. -/
theorem checkInstallationState_purges_terminal (ops : AggregatorOps A)
    (p : parallelInstallationService A) (runtimeID : String) :
    ((p.installationStatus runtimeID ≠ none ∧
        (CheckInstallationState ops p runtimeID).2.installationStatus runtimeID = none) ↔
      ((CheckInstallationState ops p runtimeID).1.1.State = StateInstalled ∨
        ((CheckInstallationState ops p runtimeID).1.1.State = StateError ∧
          (CheckInstallationState ops p runtimeID).1.2.map InstallationError.Recoverable =
            some false))) ∧
    (¬ ((CheckInstallationState ops p runtimeID).1.1.State = StateInstalled ∨
        ((CheckInstallationState ops p runtimeID).1.1.State = StateError ∧
          (CheckInstallationState ops p runtimeID).1.2.map InstallationError.Recoverable =
            some false)) →
      (CheckInstallationState ops p runtimeID).2.installationStatus = p.installationStatus) ∧
    (∀ other, p.installationStatus other = none →
      (CheckInstallationState ops p runtimeID).2.installationStatus other = none) ∧
    (∀ other, other ≠ runtimeID →
      (CheckInstallationState ops p runtimeID).2.installationStatus other =
        p.installationStatus other) := by
  rcases check_cases ops p runtimeID with ⟨hv, h, hm⟩ | ⟨v, hv, h, hm⟩ | ⟨v, hv, h, hm⟩ |
    ⟨v, hv, h, hm⟩ | ⟨v, hv, h, hm⟩
  · rw [h, hm]
    simp [hv, NoInstallationState, StateInstalled, StateError]
  · rw [h, hm]
    refine ⟨by simp [hv], by simp, ?_, ?_⟩
    · intro other ho
      by_cases hne : other = runtimeID
      · rw [hne]; simp
      · rw [Function.update_noteq hne]; exact ho
    · intro other hne
      rw [Function.update_noteq hne]
  · rw [h, hm]
    refine ⟨by simp [hv], by simp, ?_, ?_⟩
    · intro other ho
      by_cases hne : other = runtimeID
      · rw [hne]; simp
      · rw [Function.update_noteq hne]; exact ho
    · intro other hne
      rw [Function.update_noteq hne]
  · rw [h, hm]
    simp [hv, StateInstalled, StateError]
  · rw [h, hm]
    simp [hv, StateInProgress, StateInstalled, StateError]

/-! ### The background task -/

theorem terminalCalls_append (t u : List Effect) :
    terminalCalls (t ++ u) = terminalCalls t ++ terminalCalls u := by
  simp [terminalCalls, List.filter_append]

theorem emit_terminalCalls (p : parallelInstallationService A) (level : LogLevel)
    (msg : String) :
    terminalCalls (p.emit (.log level msg)).trace = terminalCalls p.trace := by
  simp [parallelInstallationService.emit, terminalCalls_append, terminalCalls]

theorem showCompStatus_terminalCalls (p : parallelInstallationService A)
    (comp : KymaComponent) :
    terminalCalls (showCompStatus p comp).trace = terminalCalls p.trace := by
  unfold showCompStatus
  split
  · exact emit_terminalCalls p .info _
  · rfl

theorem consumeEvent_terminalCalls (ops : AggregatorOps A) (runtimeID : String)
    (p : parallelInstallationService A) (event : ProcessUpdate) :
    terminalCalls (consumeEvent ops runtimeID p event).trace = terminalCalls p.trace := by
  cases hv : p.installationStatus runtimeID <;>
    simp [consumeEvent, parallelInstallationService.Lock, parallelInstallationService.Unlock,
      parallelInstallationService.lookup, parallelInstallationService.consume,
      parallelInstallationService.Warnf, parallelInstallationService.emit, hv,
      terminalCalls_append, terminalCalls]

/-- The update callback writes nothing to the package-level logger. -/
theorem callback_terminalCalls (ops : AggregatorOps A) (runtimeID : String)
    (p : parallelInstallationService A) (update : ProcessUpdate) :
    terminalCalls (getCallbackUpdate ops runtimeID p update).trace = terminalCalls p.trace := by
  cases hk : update.Event with
  | ProcessStart =>
    simp only [getCallbackUpdate, hk]
    rw [showCompStatus_terminalCalls]
    exact emit_terminalCalls p .info _
  | ProcessRunning =>
    simp only [getCallbackUpdate, hk]
    rw [consumeEvent_terminalCalls, showCompStatus_terminalCalls]
  | ProcessFinished =>
    simp only [getCallbackUpdate, hk]
    exact emit_terminalCalls p .info _
  | ProcessExecutionFailure =>
    simp only [getCallbackUpdate, hk]
    rw [consumeEvent_terminalCalls]
    exact emit_terminalCalls p .error _
  | ProcessForceQuitFailure =>
    simp only [getCallbackUpdate, hk]
    rw [consumeEvent_terminalCalls]
    exact emit_terminalCalls p .error _
  | ProcessTimeoutFailure =>
    simp only [getCallbackUpdate, hk]
    rw [consumeEvent_terminalCalls]
    exact emit_terminalCalls p .error _
  | other name =>
    simp only [getCallbackUpdate, hk]
    rw [showCompStatus_terminalCalls]
    exact emit_terminalCalls p .info _

/-- A whole engine run writes nothing to the package-level logger. -/
theorem engine_terminalCalls (ops : AggregatorOps A) (d : KymaDeployer)
    (p : parallelInstallationService A) :
    terminalCalls (d.StartKymaDeployment ops p).2.trace = terminalCalls p.trace := by
  have fold : ∀ (updates : List ProcessUpdate) (q : parallelInstallationService A),
      terminalCalls (updates.foldl (getCallbackUpdate ops d.runtimeID) q).trace =
        terminalCalls q.trace := by
    intro updates
    induction updates with
    | nil => intro q; rfl
    | cons u us ih =>
      intro q
      rw [List.foldl_cons, ih, callback_terminalCalls]
  exact fold d.updates p

/-- C13: one call of `AsyncDeployment.StartKymaDeployment` starts exactly one goroutine and
itself calls neither callback: for the caller only the `go` step is added and the map is as
before. Whenever that goroutine runs, it applies exactly one of the two terminal callbacks,
once, to the state the engine run leaves behind: the error callback with the very error
returned when the deployer's `StartKymaDeployment` returns a non-nil error, the success
callback when it returns nil. With the callbacks that `TriggerInstallation` passes,
`callbackSuccess` and `callbackErrors`, the call adds nothing to the package-level logger, the
goroutine adds exactly one line to it, and the map is the one the engine run left. -/
theorem asyncDeployment_terminal_callback (ops : AggregatorOps A) (a : AsyncDeployment)
    (p : parallelInstallationService A) :
    (∀ (success : parallelInstallationService A → parallelInstallationService A)
      (error : GoError → parallelInstallationService A → parallelInstallationService A),
      (a.StartKymaDeployment ops success error p).1.trace = p.trace ++ [.go a] ∧
      (a.StartKymaDeployment ops success error p).1.goroutines = p.goroutines ++ [a] ∧
      (a.StartKymaDeployment ops success error p).1.installationStatus =
        p.installationStatus ∧
      ∃ body, (a.StartKymaDeployment ops success error p).2 = [body] ∧
        ∀ q, (a.deployer.StartKymaDeployment ops q).1 = a.deployer.result ∧
          body q =
            match a.deployer.result with
            | some err => error err (a.deployer.StartKymaDeployment ops q).2
            | none => success (a.deployer.StartKymaDeployment ops q).2) ∧
    (terminalCalls (a.StartKymaDeployment ops callbackSuccess callbackErrors p).1.trace =
        terminalCalls p.trace ∧
      ∃ body, (a.StartKymaDeployment ops callbackSuccess callbackErrors p).2 = [body] ∧
        ∀ q, terminalCalls (body q).trace =
            terminalCalls q.trace ++
              [match a.deployer.result with
               | some err => .stdlog .error ("Installation failed: " ++ err.Error)
               | none => .stdlog .info "Installation completed successfully"] ∧
          (body q).installationStatus =
            (a.deployer.StartKymaDeployment ops q).2.installationStatus) := by
  have general : ∀ (success : parallelInstallationService A → parallelInstallationService A)
      (error : GoError → parallelInstallationService A → parallelInstallationService A)
      (q : parallelInstallationService A),
      a.run ops success error q =
        match a.deployer.result with
        | some err => error err (a.deployer.StartKymaDeployment ops q).2
        | none => success (a.deployer.StartKymaDeployment ops q).2 := by
    intro success error q
    cases hr : a.deployer.result <;>
      simp [AsyncDeployment.run, KymaDeployer.StartKymaDeployment, hr]
  refine ⟨fun success error => ⟨rfl, rfl, rfl, a.run ops success error, rfl,
    fun q => ⟨rfl, general success error q⟩⟩, ?_, a.run ops callbackSuccess callbackErrors,
    rfl, fun q => ⟨?_, ?_⟩⟩
  · simp [AsyncDeployment.StartKymaDeployment, parallelInstallationService.emit,
      terminalCalls_append, terminalCalls]
  · have quiet := engine_terminalCalls ops a.deployer q
    rw [general]
    cases hr : a.deployer.result <;>
      simp only [callbackSuccess, callbackErrors, parallelInstallationService.emit,
        terminalCalls_append, quiet] <;>
      simp [terminalCalls]
  · rw [general]
    cases hr : a.deployer.result <;>
      simp [callbackSuccess, callbackErrors, parallelInstallationService.emit]

/-! ### The engine configuration -/

theorem createdConfigs_append (t u : List Effect) :
    createdConfigs (t ++ u) = createdConfigs t ++ createdConfigs u := by
  simp [createdConfigs, List.filterMap_append]

/-- A value in the `int64` range is left alone by the wrap-around. -/
theorem wrapInt64_of_inRange (x : Int) (lo : -2 ^ 63 ≤ x) (hi : x < 2 ^ 63) :
    wrapInt64 x = x := by
  unfold wrapInt64
  rw [Int.emod_eq_of_lt (by omega) (by omega)]
  omega

/-- The configurations `TriggerInstallation` hands to the deployer creator: none when a setup
step fails or the profile is nil, otherwise one, with the fixed worker count and the two
timeouts computed in `int64`. -/
theorem trigger_createdConfigs (ops : AggregatorOps A)
    (SetOverrides : Builder → List KymaComponentConfig → Configuration → Builder × Option GoError)
    (p : parallelInstallationService A) (runtimeID kubeconfigRaw : String)
    (kymaProfile : Option String) (release : Release) (globalConfig : Configuration)
    (componentsConfig : List KymaComponentConfig) :
    ∃ built, createdConfigs (TriggerInstallation ops SetOverrides p runtimeID kubeconfigRaw
        kymaProfile release globalConfig componentsConfig).2.trace =
        createdConfigs p.trace ++ built ∧
      (∀ c ∈ built, c.WorkersCount = 4 ∧ c.CancelTimeout = p.cancelTimeout ∧
        c.QuitTimeout = wrapInt64 (p.cancelTimeout + 5 * Minute)) ∧
      ((p.pathFetcher release.Version componentsConfig).2.2 = none →
        (SetOverrides ⟨[]⟩ componentsConfig globalConfig).2 = none →
        kymaProfile ≠ none → built.length = 1) := by
  rcases hpf : p.pathFetcher release.Version componentsConfig with ⟨resources, installationResources, e⟩
  cases e with
  | some cause =>
    refine ⟨[], ?_, by simp, by simp⟩
    simp [TriggerInstallation, parallelInstallationService.Infof,
      parallelInstallationService.emit, hpf, createdConfigs_append, createdConfigs]
  | none =>
    rcases hso : SetOverrides ⟨[]⟩ componentsConfig globalConfig with ⟨b, e⟩
    cases e with
    | some cause =>
      refine ⟨[], ?_, by simp, by simp⟩
      simp [TriggerInstallation, parallelInstallationService.Infof,
        parallelInstallationService.emit, hpf, hso, createdConfigs_append, createdConfigs]
    | none =>
      cases kymaProfile with
      | none =>
        refine ⟨[], ?_, by simp, by simp⟩
        simp [TriggerInstallation, parallelInstallationService.Infof,
          parallelInstallationService.emit, hpf, hso, createdConfigs_append, createdConfigs]
      | some profile =>
        refine ⟨[{ WorkersCount := 4
                   CancelTimeout := p.cancelTimeout
                   QuitTimeout := wrapInt64 (p.cancelTimeout + 5 * Minute)
                   HelmTimeoutSeconds := 60 * 8
                   BackoffInitialIntervalSeconds := 3
                   BackoffMaxElapsedTimeSeconds := 60 * 5
                   Log := runtimeID
                   HelmMaxRevisionHistory := 10
                   Profile := profile
                   ComponentList := ConvertToComponentList componentsConfig
                   ResourcePath := resources
                   InstallationResourcePath := installationResources
                   KubeconfigSource := ⟨kubeconfigRaw⟩
                   Version := release.Version }], ?_, by simp, by simp⟩
        cases hn : ops.NewComponentsStatus componentsConfig <;>
          simp [TriggerInstallation, parallelInstallationService.Infof,
            parallelInstallationService.emit, parallelInstallationService.store,
            AsyncDeployment.StartKymaDeployment, hpf, hso, hn, createdConfigs_append,
            createdConfigs]

/-- C16, as stated, fails: with the largest `time.Duration` as cancel timeout, a successful
`TriggerInstallation` builds a configuration whose `QuitTimeout` has wrapped around to a
negative value, which is not the cancel timeout plus 5 minutes and is smaller than
`CancelTimeout`. -/
theorem quitTimeout_wraps_around :
    maxTimeoutService.cancelTimeout = 2 ^ 63 - 1 ∧
    triggeredAtMaxTimeout.1 = .returned none ∧
    (createdConfigs triggeredAtMaxTimeout.2.trace).map
      (fun c => (c.WorkersCount, c.CancelTimeout, c.QuitTimeout)) =
      [(4, 9223372036854775807, -9223371736854775809)] ∧
    (-9223371736854775809 : Int) ≠ 9223372036854775807 + 5 * Minute ∧
    (-9223371736854775809 : Int) < 9223372036854775807 := by
  refine ⟨by decide, rfl, by decide, by decide, by decide⟩

/-- C16, amended: for every configured cancel timeout in the `int64` range whose sum with 5
minutes still fits in an `int64`, and every set of deployment inputs, each engine
configuration built by `TriggerInstallation` has `WorkersCount = 4`, `CancelTimeout` = the
configured cancel timeout and `QuitTimeout` = the configured cancel timeout plus 5 minutes, so
`QuitTimeout` is not smaller than `CancelTimeout`; one configuration is built whenever both
setup steps succeed and the profile pointer is not nil. -/
theorem triggerInstallation_config_timeouts (ops : AggregatorOps A)
    (SetOverrides : Builder → List KymaComponentConfig → Configuration → Builder × Option GoError)
    (p : parallelInstallationService A) (runtimeID kubeconfigRaw : String)
    (kymaProfile : Option String) (release : Release) (globalConfig : Configuration)
    (componentsConfig : List KymaComponentConfig)
    (lo : -2 ^ 63 ≤ p.cancelTimeout) (hi : p.cancelTimeout + 5 * Minute < 2 ^ 63) :
    ∃ built, createdConfigs (TriggerInstallation ops SetOverrides p runtimeID kubeconfigRaw
        kymaProfile release globalConfig componentsConfig).2.trace =
        createdConfigs p.trace ++ built ∧
      (∀ c ∈ built, c.WorkersCount = 4 ∧ c.CancelTimeout = p.cancelTimeout ∧
        c.QuitTimeout = p.cancelTimeout + 5 * Minute ∧ c.CancelTimeout ≤ c.QuitTimeout) ∧
      ((p.pathFetcher release.Version componentsConfig).2.2 = none →
        (SetOverrides ⟨[]⟩ componentsConfig globalConfig).2 = none →
        kymaProfile ≠ none → built.length = 1) := by
  obtain ⟨built, ht, hc, hone⟩ := trigger_createdConfigs ops SetOverrides p runtimeID
    kubeconfigRaw kymaProfile release globalConfig componentsConfig
  have fiveMinutes : 5 * Minute = 300000000000 := by decide
  have fits : wrapInt64 (p.cancelTimeout + 5 * Minute) = p.cancelTimeout + 5 * Minute :=
    wrapInt64_of_inRange _ (by omega) hi
  refine ⟨built, ht, ?_, hone⟩
  intro c hmem
  obtain ⟨hw, hcancel, hquit⟩ := hc c hmem
  refine ⟨hw, hcancel, by rw [hquit, fits], ?_⟩
  rw [hquit, fits, hcancel]
  omega

theorem triggerInstallation_config_timeouts_witness :
    (-2 ^ 63 ≤ freshService.cancelTimeout ∧ freshService.cancelTimeout + 5 * Minute < 2 ^ 63) ∧
    ∃ built, createdConfigs triggeredOnce.2.trace =
        createdConfigs freshService.trace ++ built ∧
      (∀ c ∈ built, c.WorkersCount = 4 ∧ c.CancelTimeout = freshService.cancelTimeout ∧
        c.QuitTimeout = freshService.cancelTimeout + 5 * Minute ∧
        c.CancelTimeout ≤ c.QuitTimeout) ∧
      ((freshService.pathFetcher (Release.mk "1.19.0").Version istioAndCore).2.2 = none →
        (okOverrides ⟨[]⟩ istioAndCore ⟨[]⟩).2 = none →
        some "production" ≠ none → built.length = 1) :=
  ⟨⟨by decide, by decide⟩,
    triggerInstallation_config_timeouts recordingOps okOverrides freshService "r1" "kubeconfig"
      (some "production") ⟨"1.19.0"⟩ ⟨[]⟩ istioAndCore (by decide) (by decide)⟩

/-! ### The component list -/

/-- The loop of `ConvertToComponentList`, started from any list built so far. -/
theorem convert_loop (components : List KymaComponentConfig) (acc : ComponentList) :
    components.foldl
      (fun list component =>
        if component.Prerequisite then
          { list with
            Prerequisites :=
              list.Prerequisites ++ [⟨component.Component, component.Namespace⟩] }
        else
          { list with
            Components := list.Components ++ [⟨component.Component, component.Namespace⟩] })
      acc =
    ⟨acc.Prerequisites ++
        (components.filter fun c => c.Prerequisite).map fun c => ⟨c.Component, c.Namespace⟩,
      acc.Components ++
        (components.filter fun c => !c.Prerequisite).map fun c => ⟨c.Component, c.Namespace⟩⟩ := by
  induction components generalizing acc with
  | nil => simp
  | cons c cs ih =>
    rw [List.foldl_cons, ih]
    cases hc : c.Prerequisite <;> simp [hc]

/-- C17: `ConvertToComponentList` returns as `Prerequisites` the (Name, Namespace) pairs of
exactly the entries with `Prerequisite = true` and as `Components` those of exactly the entries
with `Prerequisite = false`, each in the order of the input; so the two lengths add up to the
length of the input. -/
theorem convertToComponentList_partitions (components : List KymaComponentConfig) :
    (ConvertToComponentList components).Prerequisites =
      (components.filter fun c => c.Prerequisite).map
        (fun c => (⟨c.Component, c.Namespace⟩ : ComponentDefinition)) ∧
    (ConvertToComponentList components).Components =
      (components.filter fun c => !c.Prerequisite).map
        (fun c => (⟨c.Component, c.Namespace⟩ : ComponentDefinition)) ∧
    (ConvertToComponentList components).Prerequisites.length +
      (ConvertToComponentList components).Components.length = components.length := by
  have h := convert_loop components ⟨[], []⟩
  have hsplit : ∀ l : List KymaComponentConfig,
      (l.filter fun c => c.Prerequisite).length + (l.filter fun c => !c.Prerequisite).length =
        l.length := by
    intro l
    induction l with
    | nil => rfl
    | cons c cs ih => cases hc : c.Prerequisite <;> simp [hc] <;> omega
  unfold ConvertToComponentList
  rw [h]
  refine ⟨by simp, by simp, ?_⟩
  simp only [List.nil_append, List.length_map]
  exact hsplit components

/-! ### What an update can and cannot change -/

/-- C18: for every update and every map, the update callback for the runtime ID `r` keeps
the set of map keys (it adds none and removes none), leaves the entry of every other runtime
ID as it was, and every call of `ConsumeEvent` it makes is for `r`; when `r` has no entry the
map is unchanged and no call of `ConsumeEvent` is made, so a late update cannot bring a purged
entry back. -/
theorem callback_frame (ops : AggregatorOps A) (r : String)
    (p : parallelInstallationService A) (update : ProcessUpdate) :
    (∀ k, ((getCallbackUpdate ops r p update).installationStatus k).isSome =
      (p.installationStatus k).isSome) ∧
    (∀ k, k ≠ r →
      (getCallbackUpdate ops r p update).installationStatus k = p.installationStatus k) ∧
    (∃ calls, consumeCalls (getCallbackUpdate ops r p update).trace =
        consumeCalls p.trace ++ calls ∧ ∀ c ∈ calls, c.1 = r) ∧
    (p.installationStatus r = none →
      (getCallbackUpdate ops r p update).installationStatus = p.installationStatus ∧
      consumeCalls (getCallbackUpdate ops r p update).trace = consumeCalls p.trace) := by
  rcases callback_effect ops r p update with ⟨hm, hc⟩ | ⟨v, hv, hm, hc⟩
  · refine ⟨fun k => by rw [hm], fun k _ => by rw [hm], ⟨[], by rw [hc]; simp, by simp⟩,
      fun _ => ⟨hm, hc⟩⟩
  · refine ⟨?_, ?_, ⟨[(r, update)], hc, by simp⟩, ?_⟩
    · intro k
      rw [hm]
      by_cases hk : k = r
      · rw [hk, hv]; simp
      · rw [Function.update_noteq hk]
    · intro k hk
      rw [hm, Function.update_noteq hk]
    · intro hnone
      rw [hv] at hnone
      exact absurd hnone (by simp)

/-- C19: for a runtime ID that has an entry in the map, updates of kind `ProcessRunning`,
`ProcessExecutionFailure`, `ProcessForceQuitFailure` or `ProcessTimeoutFailure` delivered one
after the other to the update callback each result in exactly one call of `ConsumeEvent`
with the unmodified update, and the entry's aggregator has consumed them in the order of
delivery; a single update is the case of a one-element list. -/
theorem callback_applies_in_order (ops : AggregatorOps A) (runtimeID : String)
    (updates : List ProcessUpdate) (p : parallelInstallationService A) (v : A)
    (hv : p.installationStatus runtimeID = some v)
    (hk : ∀ u ∈ updates, u.Event = .ProcessRunning ∨ u.Event = .ProcessExecutionFailure ∨
      u.Event = .ProcessForceQuitFailure ∨ u.Event = .ProcessTimeoutFailure) :
    (updates.foldl (getCallbackUpdate ops runtimeID) p).installationStatus runtimeID =
      some (updates.foldl ops.ConsumeEvent v) ∧
    consumeCalls (updates.foldl (getCallbackUpdate ops runtimeID) p).trace =
      consumeCalls p.trace ++ updates.map fun u => (runtimeID, u) := by
  induction updates generalizing p v with
  | nil => simp [hv]
  | cons u us ih =>
    have hu := callback_forwards ops runtimeID p u v hv (hk u (List.mem_cons_self u us))
    have hv' : (getCallbackUpdate ops runtimeID p u).installationStatus runtimeID =
        some (ops.ConsumeEvent v u) := by
      rw [hu.1]; simp
    have h := ih (getCallbackUpdate ops runtimeID p u) (ops.ConsumeEvent v u) hv'
      (fun w hw => hk w (List.mem_cons_of_mem u hw))
    rw [List.foldl_cons, List.foldl_cons, h.1, h.2, hu.2]
    simp

theorem callback_applies_in_order_witness :
    triggeredOnce.2.installationStatus "r1" = some ⟨false, none, none, "started", []⟩ ∧
    (∀ u ∈ [runningCore, timeoutUpdate],
      u.Event = .ProcessRunning ∨ u.Event = .ProcessExecutionFailure ∨
      u.Event = .ProcessForceQuitFailure ∨ u.Event = .ProcessTimeoutFailure) ∧
    ([runningCore, timeoutUpdate].foldl (getCallbackUpdate recordingOps "r1")
      triggeredOnce.2).installationStatus "r1" =
      some ([runningCore, timeoutUpdate].foldl recordingOps.ConsumeEvent
        ⟨false, none, none, "started", []⟩) ∧
    consumeCalls ([runningCore, timeoutUpdate].foldl (getCallbackUpdate recordingOps "r1")
      triggeredOnce.2).trace =
      consumeCalls triggeredOnce.2.trace ++
        [runningCore, timeoutUpdate].map fun u => ("r1", u) :=
  ⟨rfl, by decide,
    callback_applies_in_order recordingOps "r1" [runningCore, timeoutUpdate] triggeredOnce.2
      ⟨false, none, none, "started", []⟩ rfl (by decide)⟩

end Theorems

end ParallelInstallation
